import Mathlib

/-! # generic_psu: supervisory state machine of a generic power-supply unit

Shallow embedding of `generic_psu.h`.  The C structure `struct generic_psu` becomes a Lean
structure that is passed explicitly: a C function `void f(struct generic_psu *self, ...)`
becomes a function `generic_psu → ... → generic_psu`, and `generic_psu_update`, which
also returns an event, becomes a function into `generic_psu × generic_psu_event`.

Machine integers: `uint8_t`, `uint16_t` and `uint32_t` fields are natural numbers, `int16_t`
fields are integers.  The only arithmetic of the source is the `+=` on the three `uint32_t`
timers, which is written with an explicit `% 2 ^ 32`.
-/

/-! ## Enumerations -/

/-- Events emitted by the state machine (`enum generic_psu_event`), the return type of
`generic_psu_update`. -/
inductive generic_psu_event where
  | GENERIC_PSU_EVENT_NONE
  | GENERIC_PSU_EVENT_STARTED
  | GENERIC_PSU_EVENT_STOPPED
  deriving DecidableEq, Repr

/-- Hardware event `GENERIC_PSU_HW_EVENT_NONE` (passed as `uint8_t`). -/
abbrev GENERIC_PSU_HW_EVENT_NONE : Nat := 0
/-- Hardware event `GENERIC_PSU_HW_EVENT_READY`. -/
abbrev GENERIC_PSU_HW_EVENT_READY : Nat := 1
/-- Hardware event `GENERIC_PSU_HW_EVENT_FAULT`. -/
abbrev GENERIC_PSU_HW_EVENT_FAULT : Nat := 2

/-- Flag bit `GENERIC_PSU_FLAG_ACK_SETTINGS = 1`. -/
abbrev GENERIC_PSU_FLAG_ACK_SETTINGS : Nat := 1
/-- Flag bit `GENERIC_PSU_FLAG_HW_OK = 2`. -/
abbrev GENERIC_PSU_FLAG_HW_OK : Nat := 2

/-- Lifecycle state `GENERIC_PSU_STATE_INIT` (stored in the `uint8_t` field `_state`). -/
abbrev GENERIC_PSU_STATE_INIT : Nat := 0
/-- Lifecycle state `GENERIC_PSU_STATE_WAIT_FOR_INITIAL_SETTINGS`. -/
abbrev GENERIC_PSU_STATE_WAIT_FOR_INITIAL_SETTINGS : Nat := 1
/-- Lifecycle state `GENERIC_PSU_STATE_WAIT_INITIAL_HARDWARE_RESPONSE`. -/
abbrev GENERIC_PSU_STATE_WAIT_INITIAL_HARDWARE_RESPONSE : Nat := 2
/-- Lifecycle state `GENERIC_PSU_STATE_RUNNING`. -/
abbrev GENERIC_PSU_STATE_RUNNING : Nat := 3
/-- Lifecycle state `GENERIC_PSU_STATE_PRE_ERROR`. -/
abbrev GENERIC_PSU_STATE_PRE_ERROR : Nat := 4
/-- Lifecycle state `GENERIC_PSU_STATE_ERROR`. -/
abbrev GENERIC_PSU_STATE_ERROR : Nat := 5

/-! ## Data model -/

/-- Initial settings (`struct generic_psu_settings`). -/
structure generic_psu_settings where
  max_in_voltage_V : Nat
  min_in_voltage_V : Nat
  max_in_current_A : Int
  min_in_current_A : Int
  max_out_voltage_V : Nat
  min_out_voltage_V : Nat
  max_out_current_A : Int
  min_out_current_A : Int
  timeout_ms : Nat
  deriving DecidableEq, Repr

/-- The supervisor (`struct generic_psu`). -/
structure generic_psu where
  _state : Nat
  _settings : generic_psu_settings
  _set_out_voltage_V : Nat
  _set_out_current_A : Int
  _out_voltage_V : Nat
  _out_current_A : Int
  _flags : Nat
  _timer_ms : Nat
  _timeout_ms : Nat
  _overcurrent_timer : Nat
  _overvoltage_timer : Nat
  deriving DecidableEq, Repr

/-! ## Private helpers -/

/-- Working-condition check: two dwell accumulators, each reset when its condition is not
met, and a forced `PRE_ERROR` when either exceeds 1000. -/
def _generic_psu_check_working_conditions (self : generic_psu) (delta_time_ms : Nat) :
    generic_psu :=
  let s1 : generic_psu :=
    if self._out_current_A > self._settings.max_out_current_A ∨
        self._out_current_A < self._settings.min_out_current_A then
      { self with _overcurrent_timer := (self._overcurrent_timer + delta_time_ms) % 2 ^ 32 }
    else
      { self with _overcurrent_timer := 0 }
  let s2 : generic_psu :=
    if s1._out_voltage_V > s1._settings.max_out_voltage_V ∨
        s1._out_voltage_V < s1._settings.min_out_voltage_V then
      { s1 with _overvoltage_timer := (s1._overvoltage_timer + delta_time_ms) % 2 ^ 32 }
    else
      { s1 with _overvoltage_timer := 0 }
  if s2._overcurrent_timer > 1000 ∨ s2._overvoltage_timer > 1000 then
    { s2 with _state := GENERIC_PSU_STATE_PRE_ERROR }
  else
    s2

/-- State-timeout check: accumulate the elapsed time, force `PRE_ERROR` when the timer has
reached the armed timeout. -/
def _generic_psu_check_state_timeout (self : generic_psu) (delta_time_ms : Nat) :
    generic_psu :=
  let s1 : generic_psu := { self with _timer_ms := (self._timer_ms + delta_time_ms) % 2 ^ 32 }
  if s1._timer_ms ≥ s1._timeout_ms then
    { s1 with _state := GENERIC_PSU_STATE_PRE_ERROR }
  else
    s1

/-! ## Public operations -/

/-- Init with default values: every field of the structure is overwritten. -/
def generic_psu_init (self : generic_psu) : generic_psu :=
  { self with
    _state := GENERIC_PSU_STATE_INIT
    _settings :=
      { max_in_voltage_V := 0
        min_in_voltage_V := 0
        max_in_current_A := 0
        min_in_current_A := 0
        max_out_voltage_V := 0
        min_out_voltage_V := 0
        max_out_current_A := 0
        min_out_current_A := 0
        timeout_ms := 15000 }
    _set_out_voltage_V := 0
    _set_out_current_A := 0
    _out_voltage_V := 0
    _out_current_A := 0
    _flags := 0
    _timer_ms := 0
    _timeout_ms := 0
    _overcurrent_timer := 0
    _overvoltage_timer := 0 }

/-- Acknowledge that the settings have been configured. -/
def generic_psu_set_ack_settings (self : generic_psu) : generic_psu :=
  { self with _flags := self._flags ||| GENERIC_PSU_FLAG_ACK_SETTINGS }

/-- Set the commanded output voltage: clamp to the maximum first, then to the minimum. -/
def generic_psu_set_out_voltage_V (self : generic_psu) (voltage : Nat) : generic_psu :=
  let max_val := self._settings.max_out_voltage_V
  let min_val := self._settings.min_out_voltage_V
  let new_val := voltage
  let new_val := if new_val > max_val then max_val else new_val
  let new_val := if new_val < min_val then min_val else new_val
  { self with _set_out_voltage_V := new_val }

/-- Set the commanded output current: clamp to the maximum first, then to the minimum. -/
def generic_psu_set_out_current_A (self : generic_psu) (current : Int) : generic_psu :=
  let max_val := self._settings.max_out_current_A
  let min_val := self._settings.min_out_current_A
  let new_val := current
  let new_val := if new_val > max_val then max_val else new_val
  let new_val := if new_val < min_val then min_val else new_val
  { self with _set_out_current_A := new_val }

/-- Set the armed state timeout. -/
def generic_psu_set_timeout_ms (self : generic_psu) (timeout_ms : Nat) : generic_psu :=
  { self with _timeout_ms := timeout_ms }

/-- Set hardware event: `READY` sets the hardware-OK bit, `FAULT` clears it (the C
expression `_flags &= ~2` on a `uint8_t` keeps the other seven bits, mask `255 ^ 2`), any
other value falls to `default`. -/
def generic_psu_set_hw_event (self : generic_psu) (event : Nat) : generic_psu :=
  if event = GENERIC_PSU_HW_EVENT_READY then
    { self with _flags := self._flags ||| GENERIC_PSU_FLAG_HW_OK }
  else if event = GENERIC_PSU_HW_EVENT_FAULT then
    { self with _flags := self._flags &&& (255 ^^^ GENERIC_PSU_FLAG_HW_OK) }
  else
    self

/-- Set the measured output voltage. -/
def generic_psu_set_hw_out_voltage_V (self : generic_psu) (voltage : Nat) : generic_psu :=
  { self with _out_voltage_V := voltage }

/-- Set the measured output current. -/
def generic_psu_set_hw_out_current_A (self : generic_psu) (current : Int) : generic_psu :=
  { self with _out_current_A := current }

/-- Getter of the measured output voltage. -/
def generic_psu_get_out_voltage_V (self : generic_psu) : Nat :=
  self._out_voltage_V

/-- Getter of the measured output current. -/
def generic_psu_get_out_current_A (self : generic_psu) : Int :=
  self._out_current_A

/-- Periodic update: the `switch` on `_state`, every case ending in `break`; the result is
the structure after the call and the returned event. -/
def generic_psu_update (self : generic_psu) (delta_time_ms : Nat) :
    generic_psu × generic_psu_event :=
  if self._state = GENERIC_PSU_STATE_INIT then
    ({ self with _timer_ms := 0, _state := GENERIC_PSU_STATE_WAIT_FOR_INITIAL_SETTINGS },
      generic_psu_event.GENERIC_PSU_EVENT_STARTED)
  else if self._state = GENERIC_PSU_STATE_WAIT_FOR_INITIAL_SETTINGS then
    let s1 : generic_psu :=
      if (self._flags &&& GENERIC_PSU_FLAG_ACK_SETTINGS) > 0 then
        { self with
          _timer_ms := 0
          _timeout_ms := self._settings.timeout_ms
          _state := GENERIC_PSU_STATE_WAIT_INITIAL_HARDWARE_RESPONSE }
      else
        self
    (_generic_psu_check_state_timeout s1 delta_time_ms,
      generic_psu_event.GENERIC_PSU_EVENT_NONE)
  else if self._state = GENERIC_PSU_STATE_WAIT_INITIAL_HARDWARE_RESPONSE then
    let s1 : generic_psu :=
      if (self._flags &&& GENERIC_PSU_FLAG_HW_OK) > 0 then
        { self with _state := GENERIC_PSU_STATE_RUNNING }
      else
        self
    (_generic_psu_check_state_timeout s1 delta_time_ms,
      generic_psu_event.GENERIC_PSU_EVENT_NONE)
  else if self._state = GENERIC_PSU_STATE_RUNNING then
    let s1 : generic_psu :=
      if (self._flags &&& GENERIC_PSU_FLAG_HW_OK) = 0 then
        { self with _state := GENERIC_PSU_STATE_PRE_ERROR }
      else
        self
    (_generic_psu_check_working_conditions s1 delta_time_ms,
      generic_psu_event.GENERIC_PSU_EVENT_NONE)
  else if self._state = GENERIC_PSU_STATE_PRE_ERROR then
    ({ self with _state := GENERIC_PSU_STATE_ERROR },
      generic_psu_event.GENERIC_PSU_EVENT_STOPPED)
  else if self._state = GENERIC_PSU_STATE_ERROR then
    (self, generic_psu_event.GENERIC_PSU_EVENT_NONE)
  else
    (self, generic_psu_event.GENERIC_PSU_EVENT_NONE)

/-! ## Call sequences -/

/-- One call made by the owner on an initialised structure: the periodic update or one of
the seven setters, with its argument. -/
inductive generic_psu_call where
  | update (delta_time_ms : Nat)
  | set_ack_settings
  | set_out_voltage_V (voltage : Nat)
  | set_out_current_A (current : Int)
  | set_timeout_ms (timeout_ms : Nat)
  | set_hw_event (event : Nat)
  | set_hw_out_voltage_V (voltage : Nat)
  | set_hw_out_current_A (current : Int)
  deriving DecidableEq, Repr

/-- The structure after one call. -/
def generic_psu_call.apply (self : generic_psu) : generic_psu_call → generic_psu
  | .update delta_time_ms => (generic_psu_update self delta_time_ms).1
  | .set_ack_settings => generic_psu_set_ack_settings self
  | .set_out_voltage_V voltage => generic_psu_set_out_voltage_V self voltage
  | .set_out_current_A current => generic_psu_set_out_current_A self current
  | .set_timeout_ms timeout_ms => generic_psu_set_timeout_ms self timeout_ms
  | .set_hw_event event => generic_psu_set_hw_event self event
  | .set_hw_out_voltage_V voltage => generic_psu_set_hw_out_voltage_V self voltage
  | .set_hw_out_current_A current => generic_psu_set_hw_out_current_A self current

/-- The structure after a sequence of calls, made in order. -/
def run_calls (self : generic_psu) : List generic_psu_call → generic_psu
  | [] => self
  | c :: cs => run_calls (generic_psu_call.apply self c) cs

/-- The events returned by the update calls of a sequence of calls, in order (setters
return nothing). -/
def run_events (self : generic_psu) : List generic_psu_call → List generic_psu_event
  | [] => []
  | .update delta_time_ms :: cs =>
      (generic_psu_update self delta_time_ms).2 ::
        run_events (generic_psu_update self delta_time_ms).1 cs
  | c :: cs => run_events (generic_psu_call.apply self c) cs

/-- The structure after a sequence of update calls with the given elapsed times and no
setter call in between. -/
def run_updates (self : generic_psu) : List Nat → generic_psu
  | [] => self
  | d :: ds => run_updates (generic_psu_update self d).1 ds

/-- Whether a call is an update call. -/
def generic_psu_call.is_update : generic_psu_call → Bool
  | .update _ => true
  | _ => false

/-! ## Concrete structures used in examples -/

/-- The structure right after `generic_psu_init`. -/
def psu_fresh : generic_psu :=
  generic_psu_init
    { _state := 0
      _settings :=
        { max_in_voltage_V := 0, min_in_voltage_V := 0, max_in_current_A := 0,
          min_in_current_A := 0, max_out_voltage_V := 0, min_out_voltage_V := 0,
          max_out_current_A := 0, min_out_current_A := 0, timeout_ms := 0 }
      _set_out_voltage_V := 0
      _set_out_current_A := 0
      _out_voltage_V := 0
      _out_current_A := 0
      _flags := 0
      _timer_ms := 0
      _timeout_ms := 0
      _overcurrent_timer := 0
      _overvoltage_timer := 0 }

/-- An initialised structure whose owner configured inverted output bounds: minimum output
voltage 10 above maximum 5, minimum output current 3 above maximum -4. -/
def psu_inverted_bounds : generic_psu :=
  { psu_fresh with
    _settings :=
      { psu_fresh._settings with
        max_out_voltage_V := 5
        min_out_voltage_V := 10
        max_out_current_A := -4
        min_out_current_A := 3 } }

/-- An initialised structure with ordered output bounds, the current bounds both negative:
voltage in `[10, 50]`, current in `[-5, -2]`. -/
def psu_ordered_bounds : generic_psu :=
  { psu_fresh with
    _settings :=
      { psu_fresh._settings with
        max_out_voltage_V := 50
        min_out_voltage_V := 10
        max_out_current_A := -2
        min_out_current_A := -5 } }

/-- A structure waiting for its settings: init, the first update, then an armed timeout of
15000 ms; the timer is 0 and the settings are not acknowledged. -/
def psu_waiting_settings : generic_psu :=
  run_calls psu_fresh [generic_psu_call.update 0, generic_psu_call.set_timeout_ms 15000]

/-- A structure brought to `RUNNING` with output-voltage bounds `[0, 50]` and
output-current bounds `[0, 10]`, on which the hardware then reports 60 V. -/
def psu_running_60V : generic_psu :=
  run_calls
    { psu_fresh with
      _settings :=
        { psu_fresh._settings with max_out_voltage_V := 50, max_out_current_A := 10 } }
    [generic_psu_call.update 0, generic_psu_call.set_ack_settings,
      generic_psu_call.update 0,
      generic_psu_call.set_hw_event GENERIC_PSU_HW_EVENT_READY,
      generic_psu_call.update 0, generic_psu_call.set_hw_out_voltage_V 60]

/-- A structure brought to `RUNNING` with output-voltage bounds `[0, 50]` and
output-current bounds `[0, 10]`, on which the hardware then reports 12 A. -/
def psu_running_12A : generic_psu :=
  run_calls
    { psu_fresh with
      _settings :=
        { psu_fresh._settings with max_out_voltage_V := 50, max_out_current_A := 10 } }
    [generic_psu_call.update 0, generic_psu_call.set_ack_settings,
      generic_psu_call.update 0,
      generic_psu_call.set_hw_event GENERIC_PSU_HW_EVENT_READY,
      generic_psu_call.update 0, generic_psu_call.set_hw_out_current_A 12]

/-- A structure after init and the first update only: `WAIT_FOR_INITIAL_SETTINGS`, timer 0,
settings not acknowledged, armed timeout still the 0 written by init. -/
def psu_waiting_default : generic_psu :=
  run_calls psu_fresh [generic_psu_call.update 0]

/-- A structure after init, the first update and the acknowledgment of the settings:
`WAIT_FOR_INITIAL_SETTINGS`, flag set, timer 0, armed timeout 0, settings timeout 15000. -/
def psu_acknowledged : generic_psu :=
  run_calls psu_fresh [generic_psu_call.update 0, generic_psu_call.set_ack_settings]

/-- A structure in `WAIT_INITIAL_HARDWARE_RESPONSE` with timer 14000 of the armed 15000 on
which the hardware has just signalled ready. -/
def psu_hardware_ready_late : generic_psu :=
  run_calls psu_fresh
    [generic_psu_call.update 0, generic_psu_call.set_ack_settings,
      generic_psu_call.update 14000,
      generic_psu_call.set_hw_event GENERIC_PSU_HW_EVENT_READY]

/-- A `RUNNING` structure, bounds `[0, 50]` V and `[0, 10]` A, measured values in range, on
which the hardware has just signalled a fault. -/
def psu_running_hw_fault : generic_psu :=
  run_calls
    { psu_fresh with
      _settings :=
        { psu_fresh._settings with max_out_voltage_V := 50, max_out_current_A := 10 } }
    [generic_psu_call.update 0, generic_psu_call.set_ack_settings,
      generic_psu_call.update 0,
      generic_psu_call.set_hw_event GENERIC_PSU_HW_EVENT_READY,
      generic_psu_call.update 0,
      generic_psu_call.set_hw_event GENERIC_PSU_HW_EVENT_FAULT]

/-! ## Clamping -/

/-- Lower bound of the voltage clamp, for any bounds. -/
theorem set_out_voltage_V_ge_min (self : generic_psu) (voltage : Nat) :
    self._settings.min_out_voltage_V ≤
      (generic_psu_set_out_voltage_V self voltage)._set_out_voltage_V := by
  simp only [generic_psu_set_out_voltage_V]
  split_ifs <;> omega

/-- C1, as stated, fails: with minimum output voltage 10 configured above maximum 5, the
setter called with 7 clamps to 5 and then to 10, so the stored value 10 is not within
`[min, max]`: it exceeds the maximum. -/
theorem set_out_voltage_V_not_within_inverted_bounds :
    ¬ (psu_inverted_bounds._settings.min_out_voltage_V ≤
          (generic_psu_set_out_voltage_V psu_inverted_bounds 7)._set_out_voltage_V ∧
        (generic_psu_set_out_voltage_V psu_inverted_bounds 7)._set_out_voltage_V ≤
          psu_inverted_bounds._settings.max_out_voltage_V) := by
  decide

/-- C1, amended: for every structure whose output-voltage bounds are ordered
(`min_out_voltage_V ≤ max_out_voltage_V`) and every input voltage, the commanded voltage
stored by `generic_psu_set_out_voltage_V` lies within `[min_out_voltage_V,
max_out_voltage_V]`. -/
theorem set_out_voltage_V_within_bounds (self : generic_psu) (voltage : Nat)
    (h : self._settings.min_out_voltage_V ≤ self._settings.max_out_voltage_V) :
    self._settings.min_out_voltage_V ≤
        (generic_psu_set_out_voltage_V self voltage)._set_out_voltage_V ∧
      (generic_psu_set_out_voltage_V self voltage)._set_out_voltage_V ≤
        self._settings.max_out_voltage_V := by
  simp only [generic_psu_set_out_voltage_V]
  split_ifs <;> omega

/-- Witness of C1 (amended): bounds `[10, 50]`, input 65535, stored value within bounds. -/
theorem set_out_voltage_V_within_bounds_witness :
    psu_ordered_bounds._settings.min_out_voltage_V ≤
        (generic_psu_set_out_voltage_V psu_ordered_bounds 65535)._set_out_voltage_V ∧
      (generic_psu_set_out_voltage_V psu_ordered_bounds 65535)._set_out_voltage_V ≤
        psu_ordered_bounds._settings.max_out_voltage_V :=
  set_out_voltage_V_within_bounds psu_ordered_bounds 65535 (by decide)

/-- C2: when the configured minimum output bound is greater than the maximum, the voltage
setter stores exactly `min_out_voltage_V` and the current setter stores exactly
`min_out_current_A`, whatever the input. -/
theorem set_out_stores_min_when_min_above_max (self : generic_psu) (voltage : Nat)
    (current : Int) :
    (self._settings.max_out_voltage_V < self._settings.min_out_voltage_V →
        (generic_psu_set_out_voltage_V self voltage)._set_out_voltage_V =
          self._settings.min_out_voltage_V) ∧
      (self._settings.max_out_current_A < self._settings.min_out_current_A →
        (generic_psu_set_out_current_A self current)._set_out_current_A =
          self._settings.min_out_current_A) := by
  constructor
  · intro h
    simp only [generic_psu_set_out_voltage_V]
    split_ifs <;> omega
  · intro h
    simp only [generic_psu_set_out_current_A]
    split_ifs <;> omega

/-- Witness of C2: voltage bounds min 10 above max 5 and input 7 store 10; current bounds
min 3 above max -4 and input -9 store 3. -/
theorem set_out_stores_min_when_min_above_max_witness :
    (generic_psu_set_out_voltage_V psu_inverted_bounds 7)._set_out_voltage_V = 10 ∧
      (generic_psu_set_out_current_A psu_inverted_bounds (-9))._set_out_current_A = 3 :=
  ⟨(set_out_stores_min_when_min_above_max psu_inverted_bounds 7 (-9)).1 (by decide),
    (set_out_stores_min_when_min_above_max psu_inverted_bounds 7 (-9)).2 (by decide)⟩

/-- C3: with ordered current bounds (`min_out_current_A ≤ max_out_current_A`, either sign),
`generic_psu_set_out_current_A` stores the input itself when it is within the bounds, the
maximum when it is above, the minimum when it is below, and changes no other field. -/
theorem set_out_current_A_clamps (self : generic_psu) (current : Int)
    (h : self._settings.min_out_current_A ≤ self._settings.max_out_current_A) :
    (self._settings.min_out_current_A ≤ current ∧
          current ≤ self._settings.max_out_current_A →
        generic_psu_set_out_current_A self current =
          { self with _set_out_current_A := current }) ∧
      (current > self._settings.max_out_current_A →
        generic_psu_set_out_current_A self current =
          { self with _set_out_current_A := self._settings.max_out_current_A }) ∧
      (current < self._settings.min_out_current_A →
        generic_psu_set_out_current_A self current =
          { self with _set_out_current_A := self._settings.min_out_current_A }) := by
  refine ⟨?_, ?_, ?_⟩
  · rintro ⟨h1, h2⟩
    simp only [generic_psu_set_out_current_A]
    rw [if_neg (by omega), if_neg (by omega)]
  · intro h1
    simp only [generic_psu_set_out_current_A]
    rw [if_pos h1, if_neg (by omega)]
  · intro h1
    simp only [generic_psu_set_out_current_A]
    have h2 : ¬ current > self._settings.max_out_current_A := by omega
    rw [if_neg h2, if_pos h1]

/-- Witness of C3: bounds `[-5, -2]`; input -7 stores -5, input -3 stores -3, input 4
stores -2. -/
theorem set_out_current_A_clamps_witness :
    generic_psu_set_out_current_A psu_ordered_bounds (-7) =
        { psu_ordered_bounds with _set_out_current_A := -5 } ∧
      generic_psu_set_out_current_A psu_ordered_bounds (-3) =
        { psu_ordered_bounds with _set_out_current_A := -3 } ∧
      generic_psu_set_out_current_A psu_ordered_bounds 4 =
        { psu_ordered_bounds with _set_out_current_A := -2 } :=
  ⟨(set_out_current_A_clamps psu_ordered_bounds (-7) (by decide)).2.2 (by decide),
    (set_out_current_A_clamps psu_ordered_bounds (-3) (by decide)).1 (by decide),
    (set_out_current_A_clamps psu_ordered_bounds 4 (by decide)).2.1 (by decide)⟩

/-! ## One call: how the lifecycle state moves -/

/-- The state-timeout check leaves the lifecycle state as it is or forces `PRE_ERROR`. -/
theorem check_state_timeout_state (self : generic_psu) (d : Nat) :
    (_generic_psu_check_state_timeout self d)._state =
      if (self._timer_ms + d) % 2 ^ 32 ≥ self._timeout_ms then GENERIC_PSU_STATE_PRE_ERROR
      else self._state := by
  unfold _generic_psu_check_state_timeout
  dsimp only
  split_ifs <;> rfl

/-- The working-condition check leaves the lifecycle state as it is or forces
`PRE_ERROR`. -/
theorem check_working_conditions_state (self : generic_psu) (d : Nat) :
    (_generic_psu_check_working_conditions self d)._state = self._state ∨
      (_generic_psu_check_working_conditions self d)._state = GENERIC_PSU_STATE_PRE_ERROR := by
  unfold _generic_psu_check_working_conditions
  dsimp only
  split_ifs <;> simp

/-- Update in `INIT`. -/
theorem update_of_init (self : generic_psu) (d : Nat)
    (h : self._state = GENERIC_PSU_STATE_INIT) :
    generic_psu_update self d =
      ({ self with _timer_ms := 0, _state := GENERIC_PSU_STATE_WAIT_FOR_INITIAL_SETTINGS },
        generic_psu_event.GENERIC_PSU_EVENT_STARTED) := by
  unfold generic_psu_update
  rw [if_pos h]

/-- Update in `WAIT_FOR_INITIAL_SETTINGS`. -/
theorem update_of_wait_settings (self : generic_psu) (d : Nat)
    (h : self._state = GENERIC_PSU_STATE_WAIT_FOR_INITIAL_SETTINGS) :
    generic_psu_update self d =
      (_generic_psu_check_state_timeout
          (if (self._flags &&& GENERIC_PSU_FLAG_ACK_SETTINGS) > 0 then
            { self with
              _timer_ms := 0
              _timeout_ms := self._settings.timeout_ms
              _state := GENERIC_PSU_STATE_WAIT_INITIAL_HARDWARE_RESPONSE }
          else self) d,
        generic_psu_event.GENERIC_PSU_EVENT_NONE) := by
  unfold generic_psu_update
  rw [if_neg (by rw [h]; decide), if_pos h]

/-- Update in `WAIT_INITIAL_HARDWARE_RESPONSE`. -/
theorem update_of_wait_hardware (self : generic_psu) (d : Nat)
    (h : self._state = GENERIC_PSU_STATE_WAIT_INITIAL_HARDWARE_RESPONSE) :
    generic_psu_update self d =
      (_generic_psu_check_state_timeout
          (if (self._flags &&& GENERIC_PSU_FLAG_HW_OK) > 0 then
            { self with _state := GENERIC_PSU_STATE_RUNNING }
          else self) d,
        generic_psu_event.GENERIC_PSU_EVENT_NONE) := by
  unfold generic_psu_update
  rw [if_neg (by rw [h]; decide), if_neg (by rw [h]; decide), if_pos h]

/-- Update in `RUNNING`. -/
theorem update_of_running (self : generic_psu) (d : Nat)
    (h : self._state = GENERIC_PSU_STATE_RUNNING) :
    generic_psu_update self d =
      (_generic_psu_check_working_conditions
          (if (self._flags &&& GENERIC_PSU_FLAG_HW_OK) = 0 then
            { self with _state := GENERIC_PSU_STATE_PRE_ERROR }
          else self) d,
        generic_psu_event.GENERIC_PSU_EVENT_NONE) := by
  unfold generic_psu_update
  rw [if_neg (by rw [h]; decide), if_neg (by rw [h]; decide), if_neg (by rw [h]; decide),
    if_pos h]

/-- Update in `PRE_ERROR`. -/
theorem update_of_pre_error (self : generic_psu) (d : Nat)
    (h : self._state = GENERIC_PSU_STATE_PRE_ERROR) :
    generic_psu_update self d =
      ({ self with _state := GENERIC_PSU_STATE_ERROR },
        generic_psu_event.GENERIC_PSU_EVENT_STOPPED) := by
  unfold generic_psu_update
  rw [if_neg (by rw [h]; decide), if_neg (by rw [h]; decide), if_neg (by rw [h]; decide),
    if_neg (by rw [h]; decide), if_pos h]

/-- Update in `ERROR` and at any value of `_state` that is no lifecycle state. -/
theorem update_of_terminal (self : generic_psu) (d : Nat)
    (h : GENERIC_PSU_STATE_ERROR ≤ self._state) :
    generic_psu_update self d = (self, generic_psu_event.GENERIC_PSU_EVENT_NONE) := by
  unfold generic_psu_update
  have h5 : (5 : Nat) ≤ self._state := h
  rw [if_neg (show ¬ self._state = 0 by omega), if_neg (show ¬ self._state = 1 by omega),
    if_neg (show ¬ self._state = 2 by omega), if_neg (show ¬ self._state = 3 by omega),
    if_neg (show ¬ self._state = 4 by omega)]
  split_ifs <;> rfl

/-- The state of a structure is one of the six lifecycle states or a value from 5 on. -/
theorem state_cases (self : generic_psu) :
    self._state = GENERIC_PSU_STATE_INIT ∨
      self._state = GENERIC_PSU_STATE_WAIT_FOR_INITIAL_SETTINGS ∨
      self._state = GENERIC_PSU_STATE_WAIT_INITIAL_HARDWARE_RESPONSE ∨
      self._state = GENERIC_PSU_STATE_RUNNING ∨
      self._state = GENERIC_PSU_STATE_PRE_ERROR ∨
      GENERIC_PSU_STATE_ERROR ≤ self._state := by
  show self._state = 0 ∨ self._state = 1 ∨ self._state = 2 ∨ self._state = 3 ∨
    self._state = 4 ∨ 5 ≤ self._state
  omega

/-- One update call never decreases the lifecycle state. -/
theorem update_state_mono (self : generic_psu) (d : Nat) :
    self._state ≤ (generic_psu_update self d).1._state := by
  rcases state_cases self with h | h | h | h | h | h
  · rw [update_of_init self d h, h]
    exact Nat.zero_le _
  · rw [update_of_wait_settings self d h]
    dsimp only
    rw [check_state_timeout_state]
    by_cases hack : (self._flags &&& GENERIC_PSU_FLAG_ACK_SETTINGS) > 0
    · rw [if_pos hack, h]
      dsimp only
      split_ifs <;> decide
    · rw [if_neg hack, h]
      split_ifs <;> decide
  · rw [update_of_wait_hardware self d h]
    dsimp only
    rw [check_state_timeout_state]
    by_cases hok : (self._flags &&& GENERIC_PSU_FLAG_HW_OK) > 0
    · rw [if_pos hok, h]
      dsimp only
      split_ifs <;> decide
    · rw [if_neg hok, h]
      split_ifs <;> decide
  · rw [update_of_running self d h]
    dsimp only
    rcases check_working_conditions_state
      (if (self._flags &&& GENERIC_PSU_FLAG_HW_OK) = 0 then
        { self with _state := GENERIC_PSU_STATE_PRE_ERROR } else self) d with h1 | h1
    · rw [h1]
      split_ifs
      · rw [h]; dsimp only; decide
      · exact Nat.le_refl _
    · rw [h1, h]; decide
  · rw [update_of_pre_error self d h, h]
    dsimp only
    decide
  · rw [update_of_terminal self d h]

/-- A setter call leaves the lifecycle state unchanged. -/
theorem setter_state (self : generic_psu) (c : generic_psu_call)
    (hc : c.is_update = false) : (generic_psu_call.apply self c)._state = self._state := by
  cases c with
  | update d => simp [generic_psu_call.is_update] at hc
  | set_hw_event e =>
    simp only [generic_psu_call.apply, generic_psu_set_hw_event]
    split_ifs <;> rfl
  | _ => rfl

/-- One call, update or setter, never decreases the lifecycle state. -/
theorem apply_state_mono (self : generic_psu) (c : generic_psu_call) :
    self._state ≤ (generic_psu_call.apply self c)._state := by
  cases h : c.is_update with
  | false => rw [setter_state self c h]
  | true =>
    cases c with
    | update d => exact update_state_mono self d
    | _ => simp [generic_psu_call.is_update] at h

/-- A sequence of calls never decreases the lifecycle state. -/
theorem run_calls_state_mono (cs : List generic_psu_call) (self : generic_psu) :
    self._state ≤ (run_calls self cs)._state := by
  induction cs generalizing self with
  | nil => exact Nat.le_refl _
  | cons c cs ih => exact Nat.le_trans (apply_state_mono self c) (ih _)

/-- Once the state is `ERROR`, one call leaves it `ERROR`. -/
theorem apply_state_error (self : generic_psu) (c : generic_psu_call)
    (h : self._state = GENERIC_PSU_STATE_ERROR) :
    (generic_psu_call.apply self c)._state = GENERIC_PSU_STATE_ERROR := by
  cases hc : c.is_update with
  | false => rw [setter_state self c hc, h]
  | true =>
    cases c with
    | update d =>
      show (generic_psu_update self d).1._state = GENERIC_PSU_STATE_ERROR
      rw [update_of_terminal self d (by rw [h])]
      exact h
    | _ => simp [generic_psu_call.is_update] at hc

/-- Once the state is `ERROR`, a sequence of calls leaves it `ERROR`. -/
theorem run_calls_state_error (cs : List generic_psu_call) (self : generic_psu)
    (h : self._state = GENERIC_PSU_STATE_ERROR) :
    (run_calls self cs)._state = GENERIC_PSU_STATE_ERROR := by
  induction cs generalizing self with
  | nil => exact h
  | cons c cs ih => exact ih _ (apply_state_error self c h)

/-! ## Monotonic lifecycle -/

/-- C4: with the lifecycle states ordered INIT < WAIT_FOR_INITIAL_SETTINGS <
WAIT_INITIAL_HARDWARE_RESPONSE < RUNNING < PRE_ERROR < ERROR, from every structure and along
every sequence of update and setter calls the lifecycle state never decreases; a state
that has been left (after the calls `cs1`) is not the state after any further calls `cs2`;
and a structure in ERROR stays in ERROR. -/
theorem lifecycle_state_never_decreases (self : generic_psu)
    (cs1 cs2 : List generic_psu_call) :
    self._state ≤ (run_calls self cs1)._state ∧
      (run_calls self cs1)._state ≤ (run_calls (run_calls self cs1) cs2)._state ∧
      ((run_calls self cs1)._state ≠ self._state →
        (run_calls (run_calls self cs1) cs2)._state ≠ self._state) ∧
      (self._state = GENERIC_PSU_STATE_ERROR →
        (run_calls self cs1)._state = GENERIC_PSU_STATE_ERROR) := by
  have h1 := run_calls_state_mono cs1 self
  have h2 := run_calls_state_mono cs2 (run_calls self cs1)
  refine ⟨h1, h2, ?_, run_calls_state_error cs1 self⟩
  intro hne
  omega

/-! ## Events of a sequence of calls -/

/-- An update call returns `STARTED` exactly when the state before it is `INIT`. -/
theorem update_started_iff (self : generic_psu) (d : Nat) :
    (generic_psu_update self d).2 = generic_psu_event.GENERIC_PSU_EVENT_STARTED ↔
      self._state = GENERIC_PSU_STATE_INIT := by
  rcases state_cases self with h | h | h | h | h | h
  · rw [update_of_init self d h]; simp [h]
  · rw [update_of_wait_settings self d h]; simp [h]
  · rw [update_of_wait_hardware self d h]; simp [h]
  · rw [update_of_running self d h]; simp [h]
  · rw [update_of_pre_error self d h]; simp [h]
  · rw [update_of_terminal self d h]
    have h5 : (5 : Nat) ≤ self._state := h
    have h0 : ¬ self._state = 0 := by omega
    simpa using h0

/-- An update call returns `STOPPED` exactly when the state before it is `PRE_ERROR`. -/
theorem update_stopped_iff (self : generic_psu) (d : Nat) :
    (generic_psu_update self d).2 = generic_psu_event.GENERIC_PSU_EVENT_STOPPED ↔
      self._state = GENERIC_PSU_STATE_PRE_ERROR := by
  rcases state_cases self with h | h | h | h | h | h
  · rw [update_of_init self d h]; simp [h]
  · rw [update_of_wait_settings self d h]; simp [h]
  · rw [update_of_wait_hardware self d h]; simp [h]
  · rw [update_of_running self d h]; simp [h]
  · rw [update_of_pre_error self d h]; simp [h]
  · rw [update_of_terminal self d h]
    have h5 : (5 : Nat) ≤ self._state := h
    have h0 : ¬ self._state = 4 := by omega
    simpa using h0

/-- The events of a sequence that starts with a setter call are those of the rest. -/
theorem run_events_setter (self : generic_psu) (c : generic_psu_call)
    (cs : List generic_psu_call) (hc : c.is_update = false) :
    run_events self (c :: cs) = run_events (generic_psu_call.apply self c) cs := by
  cases c with
  | update d => simp [generic_psu_call.is_update] at hc
  | _ => rfl

/-- One event is returned for each update call of the sequence. -/
theorem run_events_length (cs : List generic_psu_call) (self : generic_psu) :
    (run_events self cs).length = (cs.filter generic_psu_call.is_update).length := by
  induction cs generalizing self with
  | nil => rfl
  | cons c cs ih =>
    cases hc : c.is_update with
    | false =>
      rw [run_events_setter self c cs hc, ih, List.filter_cons_of_neg (by simp [hc])]
    | true =>
      cases c with
      | update d =>
        rw [List.filter_cons_of_pos hc]
        simp only [run_events, List.length_cons, ih]
      | _ => simp [generic_psu_call.is_update] at hc

/-- Past `INIT`, no update call of a sequence returns `STARTED`. -/
theorem no_started_past_init (cs : List generic_psu_call) (self : generic_psu)
    (h : self._state ≠ GENERIC_PSU_STATE_INIT) :
    generic_psu_event.GENERIC_PSU_EVENT_STARTED ∉ run_events self cs := by
  induction cs generalizing self with
  | nil => simp [run_events]
  | cons c cs ih =>
    have hnext : (generic_psu_call.apply self c)._state ≠ GENERIC_PSU_STATE_INIT := by
      have hm := apply_state_mono self c
      have h0 : self._state ≠ 0 := h
      show (generic_psu_call.apply self c)._state ≠ 0
      omega
    cases hc : c.is_update with
    | false =>
      rw [run_events_setter self c cs hc]
      exact ih _ hnext
    | true =>
      cases c with
      | update d =>
        simp only [run_events, List.mem_cons, not_or]
        refine ⟨?_, ih _ hnext⟩
        intro heq
        exact h ((update_started_iff self d).1 heq.symm)
      | _ => simp [generic_psu_call.is_update] at hc

/-- From `INIT`, the first update call of a sequence returns `STARTED` and no later one
does. -/
theorem run_events_from_init (cs : List generic_psu_call) (self : generic_psu)
    (h : self._state = GENERIC_PSU_STATE_INIT) :
    run_events self cs = [] ∨
      ∃ es, run_events self cs = generic_psu_event.GENERIC_PSU_EVENT_STARTED :: es ∧
        generic_psu_event.GENERIC_PSU_EVENT_STARTED ∉ es := by
  induction cs generalizing self with
  | nil => exact Or.inl rfl
  | cons c cs ih =>
    cases hc : c.is_update with
    | false =>
      rw [run_events_setter self c cs hc]
      exact ih _ (by rw [setter_state self c hc, h])
    | true =>
      cases c with
      | update d =>
        refine Or.inr ⟨run_events (generic_psu_update self d).1 cs, ?_, ?_⟩
        · simp only [run_events]
          rw [(update_started_iff self d).2 h]
        · apply no_started_past_init
          rw [update_of_init self d h]
          dsimp only
          decide
      | _ => simp [generic_psu_call.is_update] at hc

/-- Past `PRE_ERROR`, no update call of a sequence returns `STOPPED`. -/
theorem no_stopped_past_pre_error (cs : List generic_psu_call) (self : generic_psu)
    (h : GENERIC_PSU_STATE_ERROR ≤ self._state) :
    (run_events self cs).count generic_psu_event.GENERIC_PSU_EVENT_STOPPED = 0 := by
  induction cs generalizing self with
  | nil => simp [run_events]
  | cons c cs ih =>
    have hnext : GENERIC_PSU_STATE_ERROR ≤ (generic_psu_call.apply self c)._state :=
      Nat.le_trans h (apply_state_mono self c)
    cases hc : c.is_update with
    | false =>
      rw [run_events_setter self c cs hc]
      exact ih _ hnext
    | true =>
      cases c with
      | update d =>
        have hnext2 : GENERIC_PSU_STATE_ERROR ≤ (generic_psu_update self d).1._state := hnext
        simp only [run_events]
        rw [List.count_cons, ih _ hnext2, update_of_terminal self d h]
        simp
      | _ => simp [generic_psu_call.is_update] at hc

/-- From any structure, at most one update call of a sequence returns `STOPPED`. -/
theorem stopped_at_most_once (cs : List generic_psu_call) (self : generic_psu) :
    (run_events self cs).count generic_psu_event.GENERIC_PSU_EVENT_STOPPED ≤ 1 := by
  induction cs generalizing self with
  | nil => simp [run_events]
  | cons c cs ih =>
    cases hc : c.is_update with
    | false =>
      rw [run_events_setter self c cs hc]
      exact ih _
    | true =>
      cases c with
      | update d =>
        simp only [run_events]
        rw [List.count_cons]
        by_cases hs : self._state = GENERIC_PSU_STATE_PRE_ERROR
        · have hrest := no_stopped_past_pre_error cs (generic_psu_update self d).1
            (by rw [update_of_pre_error self d hs])
          rw [hrest]
          split_ifs <;> simp
        · have hne : (generic_psu_update self d).2 ≠
              generic_psu_event.GENERIC_PSU_EVENT_STOPPED :=
            fun heq => hs ((update_stopped_iff self d).1 heq)
          have := ih (generic_psu_update self d).1
          simp only [beq_iff_eq, hne, if_false]
          omega
      | _ => simp [generic_psu_call.is_update] at hc

/-- C5: in every sequence of setter and update calls made after `generic_psu_init`, one
event is returned per update call, and the update call of index `i` (counting the update
calls from 0) returns `STARTED` exactly when it is the first one. -/
theorem started_exactly_on_first_update (self : generic_psu)
    (cs : List generic_psu_call) :
    (run_events (generic_psu_init self) cs).length =
        (cs.filter generic_psu_call.is_update).length ∧
      ∀ (i : Nat) (e : generic_psu_event),
        (run_events (generic_psu_init self) cs)[i]? = some e →
          (e = generic_psu_event.GENERIC_PSU_EVENT_STARTED ↔ i = 0) := by
  refine ⟨run_events_length cs _, ?_⟩
  intro i e hi
  rcases run_events_from_init cs (generic_psu_init self) rfl with hnil | ⟨es, hes, hnot⟩
  · rw [hnil] at hi
    simp at hi
  · rw [hes] at hi
    cases i with
    | zero =>
      simp only [List.getElem?_cons_zero, Option.some.injEq] at hi
      simp [← hi]
    | succ j =>
      simp only [List.getElem?_cons_succ] at hi
      have hmem : e ∈ es := List.getElem?_mem hi
      constructor
      · intro he
        rw [he] at hmem
        exact absurd hmem hnot
      · intro h0
        omega

/-- C6: `generic_psu_update` returns `STOPPED` exactly when the state before the call is
`PRE_ERROR`, and that call leaves the state `ERROR`; so in every sequence of setter and
update calls after `generic_psu_init`, `STOPPED` is returned at most once. -/
theorem stopped_exactly_on_pre_error_to_error (self : generic_psu) (delta_time_ms : Nat)
    (cs : List generic_psu_call) :
    ((generic_psu_update self delta_time_ms).2 =
          generic_psu_event.GENERIC_PSU_EVENT_STOPPED ↔
        self._state = GENERIC_PSU_STATE_PRE_ERROR) ∧
      (self._state = GENERIC_PSU_STATE_PRE_ERROR →
        (generic_psu_update self delta_time_ms).1._state = GENERIC_PSU_STATE_ERROR) ∧
      (run_events (generic_psu_init self) cs).count
          generic_psu_event.GENERIC_PSU_EVENT_STOPPED ≤ 1 := by
  refine ⟨update_stopped_iff self delta_time_ms, ?_, stopped_at_most_once cs _⟩
  intro h
  rw [update_of_pre_error self delta_time_ms h]

/-! ## What the two checks write -/

/-- The state-timeout check writes the timer and the lifecycle state only. -/
theorem check_state_timeout_frame (self : generic_psu) (d : Nat) :
    (_generic_psu_check_state_timeout self d)._timer_ms = (self._timer_ms + d) % 2 ^ 32 ∧
      (_generic_psu_check_state_timeout self d)._timeout_ms = self._timeout_ms ∧
      (_generic_psu_check_state_timeout self d)._flags = self._flags ∧
      (_generic_psu_check_state_timeout self d)._settings = self._settings := by
  unfold _generic_psu_check_state_timeout
  dsimp only
  split_ifs <;> exact ⟨rfl, rfl, rfl, rfl⟩

/-- The working-condition check leaves the flags, the settings and the measured values as
they are. -/
theorem check_working_conditions_frame (self : generic_psu) (d : Nat) :
    (_generic_psu_check_working_conditions self d)._flags = self._flags ∧
      (_generic_psu_check_working_conditions self d)._settings = self._settings ∧
      (_generic_psu_check_working_conditions self d)._out_voltage_V = self._out_voltage_V ∧
      (_generic_psu_check_working_conditions self d)._out_current_A = self._out_current_A := by
  unfold _generic_psu_check_working_conditions
  dsimp only
  split_ifs <;> exact ⟨rfl, rfl, rfl, rfl⟩

/-- The overcurrent accumulator after the working-condition check. -/
theorem check_working_conditions_overcurrent (self : generic_psu) (d : Nat) :
    (_generic_psu_check_working_conditions self d)._overcurrent_timer =
      if self._out_current_A > self._settings.max_out_current_A ∨
          self._out_current_A < self._settings.min_out_current_A then
        (self._overcurrent_timer + d) % 2 ^ 32
      else 0 := by
  unfold _generic_psu_check_working_conditions
  dsimp only
  split_ifs <;> rfl

/-- The overvoltage accumulator after the working-condition check. -/
theorem check_working_conditions_overvoltage (self : generic_psu) (d : Nat) :
    (_generic_psu_check_working_conditions self d)._overvoltage_timer =
      if self._out_voltage_V > self._settings.max_out_voltage_V ∨
          self._out_voltage_V < self._settings.min_out_voltage_V then
        (self._overvoltage_timer + d) % 2 ^ 32
      else 0 := by
  unfold _generic_psu_check_working_conditions
  dsimp only
  split_ifs <;> rfl

/-- The lifecycle state after the working-condition check, from the accumulators it has
just written. -/
theorem check_working_conditions_state_eq (self : generic_psu) (d : Nat) :
    (_generic_psu_check_working_conditions self d)._state =
      if (_generic_psu_check_working_conditions self d)._overcurrent_timer > 1000 ∨
          (_generic_psu_check_working_conditions self d)._overvoltage_timer > 1000 then
        GENERIC_PSU_STATE_PRE_ERROR
      else self._state := by
  unfold _generic_psu_check_working_conditions
  dsimp only
  split_ifs <;> rfl

/-- Update in `RUNNING` with the hardware-OK flag set is the working-condition check. -/
theorem update_of_running_hw_ok (self : generic_psu) (d : Nat)
    (h : self._state = GENERIC_PSU_STATE_RUNNING)
    (hok : (self._flags &&& GENERIC_PSU_FLAG_HW_OK) > 0) :
    (generic_psu_update self d).1 = _generic_psu_check_working_conditions self d := by
  rw [update_of_running self d h, if_neg (by omega)]

/-- Update in `WAIT_FOR_INITIAL_SETTINGS` with the settings-acknowledged flag clear is the
state-timeout check. -/
theorem update_of_wait_settings_unacked (self : generic_psu) (d : Nat)
    (h : self._state = GENERIC_PSU_STATE_WAIT_FOR_INITIAL_SETTINGS)
    (hack : (self._flags &&& GENERIC_PSU_FLAG_ACK_SETTINGS) = 0) :
    (generic_psu_update self d).1 = _generic_psu_check_state_timeout self d := by
  rw [update_of_wait_settings self d h, if_neg (by omega)]

/-- The sum of a prefix of a list of elapsed times is at most the sum of the list. -/
theorem sum_take_le_sum (ds : List Nat) (k : Nat) : (ds.take k).sum ≤ ds.sum := by
  induction ds generalizing k with
  | nil => simp
  | cons d ds ih =>
    cases k with
    | zero => simp
    | succ k =>
      have := ih k
      simp only [List.take_succ_cons, List.sum_cons]
      omega

/-! ## Timeout watchdog -/

/-- Watchdog in `WAIT_FOR_INITIAL_SETTINGS`, from any value of the timer: the first update
call at which timer plus cumulative elapsed time reaches the armed timeout gives
`PRE_ERROR`, every earlier call leaves the state as it is. -/
theorem wait_settings_watchdog (ds : List Nat) (self : generic_psu)
    (hstate : self._state = GENERIC_PSU_STATE_WAIT_FOR_INITIAL_SETTINGS)
    (hack : (self._flags &&& GENERIC_PSU_FLAG_ACK_SETTINGS) = 0)
    (hne : ds ≠ [])
    (hT : self._timeout_ms ≤ self._timer_ms + ds.sum)
    (h32 : self._timer_ms + ds.sum < 2 ^ 32) :
    ∃ k, k < ds.length ∧
      self._timeout_ms ≤ self._timer_ms + (ds.take (k + 1)).sum ∧
      (∀ j, j < k → self._timer_ms + (ds.take (j + 1)).sum < self._timeout_ms) ∧
      (run_updates self (ds.take (k + 1)))._state = GENERIC_PSU_STATE_PRE_ERROR ∧
      (∀ j, j < k →
        (run_updates self (ds.take (j + 1)))._state =
          GENERIC_PSU_STATE_WAIT_FOR_INITIAL_SETTINGS) := by
  induction ds generalizing self with
  | nil => exact absurd rfl hne
  | cons d ds ih =>
    rw [List.sum_cons] at hT h32
    have hstep := update_of_wait_settings_unacked self d hstate hack
    obtain ⟨hti, hto, hfl, -⟩ := check_state_timeout_frame self d
    have hst := check_state_timeout_state self d
    rw [← hstep] at hti hto hfl hst
    rw [Nat.mod_eq_of_lt (by omega)] at hti hst
    by_cases hc : self._timeout_ms ≤ self._timer_ms + d
    · refine ⟨0, by simp, by simpa using hc, by simp, ?_, by simp⟩
      simp only [Nat.zero_add, List.take_succ_cons, List.take_zero, run_updates]
      rw [hst, if_pos hc]
    · rw [if_neg hc] at hst
      have hne2 : ds ≠ [] := by
        intro h0
        rw [h0] at hT
        simp at hT
        omega
      obtain ⟨k, hk, hcross, hbefore, hpre, hwait⟩ :=
        ih (generic_psu_update self d).1 (by rw [hst, hstate]) (by rw [hfl, hack]) hne2
          (by rw [hto, hti]; omega) (by rw [hti]; omega)
      rw [hto, hti] at hcross hbefore
      refine ⟨k + 1, by simp; omega, ?_, ?_, ?_, ?_⟩
      · simp only [List.take_succ_cons, List.sum_cons]
        omega
      · intro j hj
        cases j with
        | zero =>
          simp only [Nat.zero_add, List.take_succ_cons, List.take_zero, List.sum_cons,
            List.sum_nil]
          omega
        | succ j =>
          have := hbefore j (by omega)
          simp only [List.take_succ_cons, List.sum_cons]
          omega
      · simp only [List.take_succ_cons, run_updates]
        exact hpre
      · intro j hj
        cases j with
        | zero =>
          simp only [Nat.zero_add, List.take_succ_cons, List.take_zero, run_updates]
          rw [hst, hstate]
        | succ j =>
          simp only [List.take_succ_cons, run_updates]
          exact hwait j (by omega)

/-- C7: from a structure in WAIT_FOR_INITIAL_SETTINGS with state timer 0, the
settings-acknowledged flag clear and armed timeout `_timeout_ms`, for every non-empty
sequence of update calls whose elapsed values sum to at least the timeout and fit in 32
bits, there is a first update call (index `k`) at which the cumulative elapsed time is at
least the timeout; the state is PRE_ERROR right after it and WAIT_FOR_INITIAL_SETTINGS
after every earlier call. -/
theorem timeout_watchdog (self : generic_psu) (ds : List Nat)
    (hstate : self._state = GENERIC_PSU_STATE_WAIT_FOR_INITIAL_SETTINGS)
    (htimer : self._timer_ms = 0)
    (hack : (self._flags &&& GENERIC_PSU_FLAG_ACK_SETTINGS) = 0)
    (hne : ds ≠ [])
    (hT : self._timeout_ms ≤ ds.sum)
    (h32 : ds.sum < 2 ^ 32) :
    ∃ k, k < ds.length ∧
      self._timeout_ms ≤ (ds.take (k + 1)).sum ∧
      (∀ j, j < k → (ds.take (j + 1)).sum < self._timeout_ms) ∧
      (run_updates self (ds.take (k + 1)))._state = GENERIC_PSU_STATE_PRE_ERROR ∧
      (∀ j, j < k →
        (run_updates self (ds.take (j + 1)))._state =
          GENERIC_PSU_STATE_WAIT_FOR_INITIAL_SETTINGS) := by
  have h := wait_settings_watchdog ds self hstate hack hne (by omega) (by omega)
  simpa only [htimer, Nat.zero_add] using h

/-- Witness of C7: armed timeout 15000 and elapsed values 7000, 7000, 1001, 5. -/
theorem timeout_watchdog_witness :
    ∃ k, k < [7000, 7000, 1001, 5].length ∧
      psu_waiting_settings._timeout_ms ≤ (([7000, 7000, 1001, 5] : List Nat).take (k + 1)).sum ∧
      (∀ j, j < k →
        (([7000, 7000, 1001, 5] : List Nat).take (j + 1)).sum <
          psu_waiting_settings._timeout_ms) ∧
      (run_updates psu_waiting_settings (([7000, 7000, 1001, 5] : List Nat).take (k + 1)))._state
        = GENERIC_PSU_STATE_PRE_ERROR ∧
      (∀ j, j < k →
        (run_updates psu_waiting_settings
            (([7000, 7000, 1001, 5] : List Nat).take (j + 1)))._state =
          GENERIC_PSU_STATE_WAIT_FOR_INITIAL_SETTINGS) :=
  timeout_watchdog psu_waiting_settings [7000, 7000, 1001, 5] (by decide) (by decide)
    (by decide) (by decide) (by decide) (by decide)

/-! ## Sustained overvoltage -/

/-- Overvoltage dwell in `RUNNING`, from any value of the overvoltage accumulator: the
state stays `RUNNING` while accumulator plus cumulative elapsed time is at most 1000 and
is `PRE_ERROR` at the first update call where it exceeds 1000. -/
theorem running_overvoltage_dwell (ds : List Nat) (self : generic_psu)
    (hstate : self._state = GENERIC_PSU_STATE_RUNNING)
    (hok : (self._flags &&& GENERIC_PSU_FLAG_HW_OK) > 0)
    (hcur : self._settings.min_out_current_A ≤ self._out_current_A ∧
      self._out_current_A ≤ self._settings.max_out_current_A)
    (hvolt : self._out_voltage_V > self._settings.max_out_voltage_V ∨
      self._out_voltage_V < self._settings.min_out_voltage_V)
    (h32 : self._overvoltage_timer + ds.sum < 2 ^ 32) :
    ∀ k, k < ds.length →
      (self._overvoltage_timer + (ds.take (k + 1)).sum ≤ 1000 →
        (run_updates self (ds.take (k + 1)))._state = GENERIC_PSU_STATE_RUNNING) ∧
      (self._overvoltage_timer + (ds.take (k + 1)).sum > 1000 →
        (∀ j, j < k → self._overvoltage_timer + (ds.take (j + 1)).sum ≤ 1000) →
        (run_updates self (ds.take (k + 1)))._state = GENERIC_PSU_STATE_PRE_ERROR) := by
  induction ds generalizing self with
  | nil => intro k hk; simp at hk
  | cons d ds ih =>
    rw [List.sum_cons] at h32
    have hstep := update_of_running_hw_ok self d hstate hok
    obtain ⟨hfl, hse, hov, hoc⟩ := check_working_conditions_frame self d
    have hct := check_working_conditions_overcurrent self d
    have hvt := check_working_conditions_overvoltage self d
    have hst := check_working_conditions_state_eq self d
    rw [if_neg (by omega)] at hct
    rw [if_pos hvolt, Nat.mod_eq_of_lt (by omega)] at hvt
    rw [hct, hvt] at hst
    rw [← hstep] at hfl hse hov hoc hvt hst
    intro k hk
    cases k with
    | zero =>
      simp only [Nat.zero_add, List.take_succ_cons, List.take_zero, List.sum_cons,
        List.sum_nil, Nat.add_zero, run_updates]
      rw [hst]
      constructor
      · intro hle
        rw [if_neg (by omega), hstate]
      · intro hgt _
        rw [if_pos (by omega)]
    | succ k =>
      simp only [List.take_succ_cons, List.sum_cons, run_updates]
      have hk2 : k < ds.length := by simpa using hk
      by_cases hd : self._overvoltage_timer + d ≤ 1000
      · rw [if_neg (by omega)] at hst
        have hrec := ih (generic_psu_update self d).1 (by rw [hst, hstate])
          (by rw [hfl]; exact hok) (by rw [hse, hoc]; exact hcur)
          (by rw [hse, hov]; exact hvolt) (by rw [hvt]; omega) k hk2
        rw [hvt] at hrec
        constructor
        · intro hle
          exact hrec.1 (by omega)
        · intro hgt hbefore
          refine hrec.2 (by omega) ?_
          intro j hj
          have := hbefore (j + 1) (by omega)
          simp only [List.take_succ_cons, List.sum_cons] at this
          omega
      · constructor
        · intro hle
          omega
        · intro _ hbefore
          have := hbefore 0 (by omega)
          simp only [Nat.zero_add, List.take_succ_cons, List.take_zero, List.sum_cons,
            List.sum_nil] at this
          omega

/-- C8: from a RUNNING structure with the hardware-OK flag set, both dwell accumulators 0,
measured current within the output-current bounds and measured voltage outside the
output-voltage bounds, along every sequence of update calls whose elapsed values sum
within 32 bits, the state is RUNNING after each call whose cumulative elapsed time is at
most 1000, and PRE_ERROR after the first call whose cumulative elapsed time exceeds
1000. -/
theorem sustained_overvoltage_faults_after_1000 (self : generic_psu) (ds : List Nat)
    (hstate : self._state = GENERIC_PSU_STATE_RUNNING)
    (hok : (self._flags &&& GENERIC_PSU_FLAG_HW_OK) > 0)
    (_hoc0 : self._overcurrent_timer = 0)
    (hov0 : self._overvoltage_timer = 0)
    (hcur : self._settings.min_out_current_A ≤ self._out_current_A ∧
      self._out_current_A ≤ self._settings.max_out_current_A)
    (hvolt : self._out_voltage_V > self._settings.max_out_voltage_V ∨
      self._out_voltage_V < self._settings.min_out_voltage_V)
    (h32 : ds.sum < 2 ^ 32) :
    ∀ k, k < ds.length →
      ((ds.take (k + 1)).sum ≤ 1000 →
        (run_updates self (ds.take (k + 1)))._state = GENERIC_PSU_STATE_RUNNING) ∧
      ((ds.take (k + 1)).sum > 1000 →
        (∀ j, j < k → (ds.take (j + 1)).sum ≤ 1000) →
        (run_updates self (ds.take (k + 1)))._state = GENERIC_PSU_STATE_PRE_ERROR) := by
  have h := running_overvoltage_dwell ds self hstate hok hcur hvolt (by omega)
  simpa only [hov0, Nat.zero_add] using h

/-- Witness of C8, the scenario of the specification: maximum 50 V, measured 60 V, elapsed
500 then 600; RUNNING after the first call, PRE_ERROR after the second. -/
theorem sustained_overvoltage_faults_after_1000_witness :
    (run_updates psu_running_60V [500])._state = GENERIC_PSU_STATE_RUNNING ∧
      (run_updates psu_running_60V [500, 600])._state = GENERIC_PSU_STATE_PRE_ERROR :=
  ⟨(sustained_overvoltage_faults_after_1000 psu_running_60V [500, 600] (by decide)
      (by decide) (by decide) (by decide) (by decide) (by decide) (by decide) 0
      (by decide)).1 (by decide),
    (sustained_overvoltage_faults_after_1000 psu_running_60V [500, 600] (by decide)
      (by decide) (by decide) (by decide) (by decide) (by decide) (by decide) 1
      (by decide)).2 (by decide) (by decide)⟩

/-! ## Fault-dwell reset -/

/-- Update in `RUNNING` with the hardware-OK flag set and both measured values within their
bounds: both accumulators are 0 afterwards and the state is still `RUNNING`. -/
theorem update_running_in_range (self : generic_psu) (d : Nat)
    (hstate : self._state = GENERIC_PSU_STATE_RUNNING)
    (hok : (self._flags &&& GENERIC_PSU_FLAG_HW_OK) > 0)
    (hvolt : self._settings.min_out_voltage_V ≤ self._out_voltage_V ∧
      self._out_voltage_V ≤ self._settings.max_out_voltage_V)
    (hcur : self._settings.min_out_current_A ≤ self._out_current_A ∧
      self._out_current_A ≤ self._settings.max_out_current_A) :
    (generic_psu_update self d).1._overcurrent_timer = 0 ∧
      (generic_psu_update self d).1._overvoltage_timer = 0 ∧
      (generic_psu_update self d).1._state = GENERIC_PSU_STATE_RUNNING := by
  have hct := check_working_conditions_overcurrent self d
  have hvt := check_working_conditions_overvoltage self d
  have hst := check_working_conditions_state_eq self d
  rw [if_neg (by omega)] at hct hvt
  rw [hct, hvt, if_neg (by omega), hstate] at hst
  rw [update_of_running_hw_ok self d hstate hok]
  exact ⟨hct, hvt, hst⟩

/-- Overcurrent dwell in `RUNNING` with the voltage in range: while accumulator plus total
elapsed time is at most 1000 the state stays `RUNNING`, the accumulator holds their sum,
and the flags, settings and measured values are as before. -/
theorem running_overcurrent_stay (ds : List Nat) (self : generic_psu)
    (hstate : self._state = GENERIC_PSU_STATE_RUNNING)
    (hok : (self._flags &&& GENERIC_PSU_FLAG_HW_OK) > 0)
    (hvolt : self._settings.min_out_voltage_V ≤ self._out_voltage_V ∧
      self._out_voltage_V ≤ self._settings.max_out_voltage_V)
    (hcur : self._out_current_A > self._settings.max_out_current_A ∨
      self._out_current_A < self._settings.min_out_current_A)
    (hsum : self._overcurrent_timer + ds.sum ≤ 1000) :
    (run_updates self ds)._state = GENERIC_PSU_STATE_RUNNING ∧
      (run_updates self ds)._flags = self._flags ∧
      (run_updates self ds)._settings = self._settings ∧
      (run_updates self ds)._out_voltage_V = self._out_voltage_V ∧
      (run_updates self ds)._out_current_A = self._out_current_A ∧
      (run_updates self ds)._overcurrent_timer = self._overcurrent_timer + ds.sum := by
  induction ds generalizing self with
  | nil => exact ⟨hstate, rfl, rfl, rfl, rfl, by simp [run_updates]⟩
  | cons d ds ih =>
    rw [List.sum_cons] at hsum
    have hstep := update_of_running_hw_ok self d hstate hok
    obtain ⟨hfl, hse, hov, hoc⟩ := check_working_conditions_frame self d
    have hct := check_working_conditions_overcurrent self d
    have hvt := check_working_conditions_overvoltage self d
    have hst := check_working_conditions_state_eq self d
    rw [if_pos hcur, Nat.mod_eq_of_lt (by omega)] at hct
    rw [if_neg (by omega)] at hvt
    rw [hct, hvt, if_neg (by omega), hstate] at hst
    rw [← hstep] at hfl hse hov hoc hct hst
    obtain ⟨r1, r2, r3, r4, r5, r6⟩ := ih (generic_psu_update self d).1 hst
      (by rw [hfl]; exact hok) (by rw [hse, hov]; exact hvolt)
      (by rw [hse, hoc]; exact hcur) (by rw [hct]; omega)
    simp only [run_updates, List.sum_cons]
    refine ⟨r1, r2.trans hfl, r3.trans hse, r4.trans hov, r5.trans hoc, ?_⟩
    rw [r6, hct]
    omega

/-- C9: in a RUNNING structure with the hardware-OK flag set and the measured voltage in
range, an update call made while the measured current is within the output-current bounds
sets the overcurrent accumulator to 0, whatever its previous value and the elapsed time,
and leaves the state RUNNING.  Hence the scenario, from a RUNNING structure `s0` with
overcurrent accumulator 0 and the measured current out of range: after update calls `ds1`
totalling 999 ms the state is RUNNING with accumulator 999; the hardware then reports the
in-range current `c_in` and one update call (any elapsed time `d`) resets the accumulator
to 0; the hardware then reports the out-of-range current `c_out`, and along further
update calls `ds2` totalling less than 1000 ms the state is RUNNING after each call. -/
theorem fault_dwell_reset (self : generic_psu) (delta_time_ms : Nat) (s0 : generic_psu)
    (c_in c_out : Int) (d : Nat) (ds1 ds2 : List Nat) :
    (self._state = GENERIC_PSU_STATE_RUNNING →
        (self._flags &&& GENERIC_PSU_FLAG_HW_OK) > 0 →
        (self._settings.min_out_voltage_V ≤ self._out_voltage_V ∧
          self._out_voltage_V ≤ self._settings.max_out_voltage_V) →
        (self._settings.min_out_current_A ≤ self._out_current_A ∧
          self._out_current_A ≤ self._settings.max_out_current_A) →
        (generic_psu_update self delta_time_ms).1._overcurrent_timer = 0 ∧
          (generic_psu_update self delta_time_ms).1._state = GENERIC_PSU_STATE_RUNNING) ∧
      (s0._state = GENERIC_PSU_STATE_RUNNING →
        (s0._flags &&& GENERIC_PSU_FLAG_HW_OK) > 0 →
        (s0._settings.min_out_voltage_V ≤ s0._out_voltage_V ∧
          s0._out_voltage_V ≤ s0._settings.max_out_voltage_V) →
        (s0._out_current_A > s0._settings.max_out_current_A ∨
          s0._out_current_A < s0._settings.min_out_current_A) →
        s0._overcurrent_timer = 0 →
        ds1.sum = 999 →
        (s0._settings.min_out_current_A ≤ c_in ∧ c_in ≤ s0._settings.max_out_current_A) →
        (c_out > s0._settings.max_out_current_A ∨ c_out < s0._settings.min_out_current_A) →
        ds2.sum < 1000 →
        (run_updates s0 ds1)._state = GENERIC_PSU_STATE_RUNNING ∧
          (run_updates s0 ds1)._overcurrent_timer = 999 ∧
          (generic_psu_update
              (generic_psu_set_hw_out_current_A (run_updates s0 ds1) c_in)
              d).1._overcurrent_timer = 0 ∧
          ∀ k, k ≤ ds2.length →
            (run_updates
                (generic_psu_set_hw_out_current_A
                  (generic_psu_update
                    (generic_psu_set_hw_out_current_A (run_updates s0 ds1) c_in) d).1
                  c_out)
                (ds2.take k))._state = GENERIC_PSU_STATE_RUNNING) := by
  constructor
  · intro hstate hok hvolt hcur
    obtain ⟨h1, -, h3⟩ := update_running_in_range self delta_time_ms hstate hok hvolt hcur
    exact ⟨h1, h3⟩
  · intro hstate hok hvolt hcur hoc0 hds1 hin hout hds2
    obtain ⟨a1, a2, a3, a4, -, a6⟩ :=
      running_overcurrent_stay ds1 s0 hstate hok hvolt hcur (by omega)
    rw [hoc0, hds1] at a6
    -- the clearing tick
    have hclear := update_running_in_range
      (generic_psu_set_hw_out_current_A (run_updates s0 ds1) c_in) d a1
      (by show ((run_updates s0 ds1)._flags &&& GENERIC_PSU_FLAG_HW_OK) > 0
          rw [a2]; exact hok)
      (by show (run_updates s0 ds1)._settings.min_out_voltage_V ≤
            (run_updates s0 ds1)._out_voltage_V ∧
            (run_updates s0 ds1)._out_voltage_V ≤
              (run_updates s0 ds1)._settings.max_out_voltage_V
          rw [a3, a4]; exact hvolt)
      (by show (run_updates s0 ds1)._settings.min_out_current_A ≤ c_in ∧
            c_in ≤ (run_updates s0 ds1)._settings.max_out_current_A
          rw [a3]; exact hin)
    obtain ⟨b1, -, b3⟩ := hclear
    have hstep := update_of_running_hw_ok
      (generic_psu_set_hw_out_current_A (run_updates s0 ds1) c_in) d a1
      (by show ((run_updates s0 ds1)._flags &&& GENERIC_PSU_FLAG_HW_OK) > 0
          rw [a2]; exact hok)
    obtain ⟨f1, f2, f3, -⟩ := check_working_conditions_frame
      (generic_psu_set_hw_out_current_A (run_updates s0 ds1) c_in) d
    rw [← hstep] at f1 f2 f3
    have g1 : (generic_psu_update
        (generic_psu_set_hw_out_current_A (run_updates s0 ds1) c_in) d).1._flags =
          s0._flags := f1.trans a2
    have g2 : (generic_psu_update
        (generic_psu_set_hw_out_current_A (run_updates s0 ds1) c_in) d).1._settings =
          s0._settings := f2.trans a3
    have g3 : (generic_psu_update
        (generic_psu_set_hw_out_current_A (run_updates s0 ds1) c_in) d).1._out_voltage_V =
          s0._out_voltage_V := f3.trans a4
    refine ⟨a1, a6, b1, ?_⟩
    intro k _
    have hk := sum_take_le_sum ds2 k
    exact (running_overcurrent_stay (ds2.take k)
      (generic_psu_set_hw_out_current_A
        (generic_psu_update
          (generic_psu_set_hw_out_current_A (run_updates s0 ds1) c_in) d).1 c_out)
      b3
      (by show ((generic_psu_update
            (generic_psu_set_hw_out_current_A (run_updates s0 ds1) c_in) d).1._flags &&&
              GENERIC_PSU_FLAG_HW_OK) > 0
          rw [g1]; exact hok)
      (by show (generic_psu_update
              (generic_psu_set_hw_out_current_A (run_updates s0 ds1) c_in)
              d).1._settings.min_out_voltage_V ≤
            (generic_psu_update
              (generic_psu_set_hw_out_current_A (run_updates s0 ds1) c_in)
              d).1._out_voltage_V ∧
            (generic_psu_update
              (generic_psu_set_hw_out_current_A (run_updates s0 ds1) c_in)
              d).1._out_voltage_V ≤
            (generic_psu_update
              (generic_psu_set_hw_out_current_A (run_updates s0 ds1) c_in)
              d).1._settings.max_out_voltage_V
          rw [g2, g3]; exact hvolt)
      (by show c_out > (generic_psu_update
              (generic_psu_set_hw_out_current_A (run_updates s0 ds1) c_in)
              d).1._settings.max_out_current_A ∨
            c_out < (generic_psu_update
              (generic_psu_set_hw_out_current_A (run_updates s0 ds1) c_in)
              d).1._settings.min_out_current_A
          rw [g2]; exact hout)
      (by show (generic_psu_update
            (generic_psu_set_hw_out_current_A (run_updates s0 ds1) c_in)
            d).1._overcurrent_timer + (ds2.take k).sum ≤ 1000
          rw [b1]; omega)).1

/-- Witness of C9: bounds `[0, 10]` A, measured 12 A for 400 + 599 = 999 ms, then 5 A for
one tick of 1 ms, then 12 A again for 600 + 399 = 999 ms: the state is RUNNING
throughout. -/
theorem fault_dwell_reset_witness :
    (run_updates psu_running_12A [400, 599])._overcurrent_timer = 999 ∧
      (generic_psu_update
          (generic_psu_set_hw_out_current_A (run_updates psu_running_12A [400, 599]) 5)
          1).1._overcurrent_timer = 0 ∧
      (run_updates
          (generic_psu_set_hw_out_current_A
            (generic_psu_update
              (generic_psu_set_hw_out_current_A (run_updates psu_running_12A [400, 599]) 5)
              1).1
            12)
          [600, 399])._state = GENERIC_PSU_STATE_RUNNING :=
  have h := (fault_dwell_reset psu_running_12A 0 psu_running_12A 5 12 1 [400, 599]
    [600, 399]).2 (by decide) (by decide) (by decide) (by decide) (by decide) (by decide)
    (by decide) (by decide) (by decide)
  ⟨h.2.1, h.2.2.1, h.2.2.2 2 (by decide)⟩

/-! ## Normal startup -/

/-- C10: for all elapsed values `d0`, `d1`, `d2` with `d1 + d2 < 15000`, the sequence
init, update(d0), set_ack_settings, update(d1), set_hw_event(READY), update(d2) returns
STARTED, NONE, NONE from its three update calls and leaves the state
WAIT_FOR_INITIAL_SETTINGS, WAIT_INITIAL_HARDWARE_RESPONSE and RUNNING after them. -/
theorem normal_startup (self : generic_psu) (d0 d1 d2 : Nat) (h : d1 + d2 < 15000) :
    run_events (generic_psu_init self)
        [generic_psu_call.update d0, generic_psu_call.set_ack_settings,
          generic_psu_call.update d1,
          generic_psu_call.set_hw_event GENERIC_PSU_HW_EVENT_READY,
          generic_psu_call.update d2] =
        [generic_psu_event.GENERIC_PSU_EVENT_STARTED,
          generic_psu_event.GENERIC_PSU_EVENT_NONE,
          generic_psu_event.GENERIC_PSU_EVENT_NONE] ∧
      (run_calls (generic_psu_init self)
          [generic_psu_call.update d0])._state =
        GENERIC_PSU_STATE_WAIT_FOR_INITIAL_SETTINGS ∧
      (run_calls (generic_psu_init self)
          [generic_psu_call.update d0, generic_psu_call.set_ack_settings,
            generic_psu_call.update d1])._state =
        GENERIC_PSU_STATE_WAIT_INITIAL_HARDWARE_RESPONSE ∧
      (run_calls (generic_psu_init self)
          [generic_psu_call.update d0, generic_psu_call.set_ack_settings,
            generic_psu_call.update d1,
            generic_psu_call.set_hw_event GENERIC_PSU_HW_EVENT_READY,
            generic_psu_call.update d2])._state =
        GENERIC_PSU_STATE_RUNNING := by
  have e1 : ¬ (15000 : Nat) ≤ d1 % 4294967296 := by
    rw [Nat.mod_eq_of_lt (by omega)]; omega
  have e2 : ¬ (15000 : Nat) ≤ (d1 + d2) % 4294967296 := by
    rw [Nat.mod_eq_of_lt (by omega)]; omega
  have f1 : (0 : Nat) < 1 &&& 1 := by decide
  have f2 : (0 : Nat) < 3 &&& 2 := by decide
  simp [run_events, run_calls, generic_psu_call.apply, generic_psu_update, generic_psu_init,
    generic_psu_set_ack_settings, generic_psu_set_hw_event,
    _generic_psu_check_state_timeout, e1, e2, f1, f2, GENERIC_PSU_FLAG_ACK_SETTINGS,
    GENERIC_PSU_FLAG_HW_OK]

/-- Witness of C10, the case of the specification: `d0 = d1 = d2 = 0`. -/
theorem normal_startup_witness :
    run_events (generic_psu_init psu_fresh)
        [generic_psu_call.update 0, generic_psu_call.set_ack_settings,
          generic_psu_call.update 0,
          generic_psu_call.set_hw_event GENERIC_PSU_HW_EVENT_READY,
          generic_psu_call.update 0] =
        [generic_psu_event.GENERIC_PSU_EVENT_STARTED,
          generic_psu_event.GENERIC_PSU_EVENT_NONE,
          generic_psu_event.GENERIC_PSU_EVENT_NONE] ∧
      (run_calls (generic_psu_init psu_fresh)
          [generic_psu_call.update 0])._state =
        GENERIC_PSU_STATE_WAIT_FOR_INITIAL_SETTINGS ∧
      (run_calls (generic_psu_init psu_fresh)
          [generic_psu_call.update 0, generic_psu_call.set_ack_settings,
            generic_psu_call.update 0])._state =
        GENERIC_PSU_STATE_WAIT_INITIAL_HARDWARE_RESPONSE ∧
      (run_calls (generic_psu_init psu_fresh)
          [generic_psu_call.update 0, generic_psu_call.set_ack_settings,
            generic_psu_call.update 0,
            generic_psu_call.set_hw_event GENERIC_PSU_HW_EVENT_READY,
            generic_psu_call.update 0])._state =
        GENERIC_PSU_STATE_RUNNING :=
  normal_startup psu_fresh 0 0 0 (by decide)

/-! ## Frame of the update call -/

/-- The state-timeout check as one record update. -/
theorem check_state_timeout_eq (self : generic_psu) (d : Nat) :
    _generic_psu_check_state_timeout self d =
      { self with
        _timer_ms := (self._timer_ms + d) % 2 ^ 32
        _state :=
          if (self._timer_ms + d) % 2 ^ 32 ≥ self._timeout_ms then
            GENERIC_PSU_STATE_PRE_ERROR
          else self._state } := by
  unfold _generic_psu_check_state_timeout
  dsimp only
  split_ifs <;> rfl

/-- The working-condition check leaves the commanded values, the state timer and the armed
timeout as they are. -/
theorem check_working_conditions_frame_rest (self : generic_psu) (d : Nat) :
    (_generic_psu_check_working_conditions self d)._set_out_voltage_V =
        self._set_out_voltage_V ∧
      (_generic_psu_check_working_conditions self d)._set_out_current_A =
        self._set_out_current_A ∧
      (_generic_psu_check_working_conditions self d)._timer_ms = self._timer_ms ∧
      (_generic_psu_check_working_conditions self d)._timeout_ms = self._timeout_ms := by
  unfold _generic_psu_check_working_conditions
  dsimp only
  split_ifs <;> exact ⟨rfl, rfl, rfl, rfl⟩

/-- One update call leaves the settings, the commanded values, the measured values and
the flags as they are. -/
theorem update_frame (self : generic_psu) (d : Nat) :
    (generic_psu_update self d).1._settings = self._settings ∧
      (generic_psu_update self d).1._set_out_voltage_V = self._set_out_voltage_V ∧
      (generic_psu_update self d).1._set_out_current_A = self._set_out_current_A ∧
      (generic_psu_update self d).1._out_voltage_V = self._out_voltage_V ∧
      (generic_psu_update self d).1._out_current_A = self._out_current_A ∧
      (generic_psu_update self d).1._flags = self._flags := by
  rcases state_cases self with h | h | h | h | h | h
  · rw [update_of_init self d h]
    exact ⟨rfl, rfl, rfl, rfl, rfl, rfl⟩
  · rw [update_of_wait_settings self d h, check_state_timeout_eq]
    split_ifs <;> exact ⟨rfl, rfl, rfl, rfl, rfl, rfl⟩
  · rw [update_of_wait_hardware self d h, check_state_timeout_eq]
    split_ifs <;> exact ⟨rfl, rfl, rfl, rfl, rfl, rfl⟩
  · rw [update_of_running self d h]
    dsimp only
    obtain ⟨a1, a2, a3, a4⟩ := check_working_conditions_frame
      (if (self._flags &&& GENERIC_PSU_FLAG_HW_OK) = 0 then
        { self with _state := GENERIC_PSU_STATE_PRE_ERROR } else self) d
    obtain ⟨b1, b2, -, -⟩ := check_working_conditions_frame_rest
      (if (self._flags &&& GENERIC_PSU_FLAG_HW_OK) = 0 then
        { self with _state := GENERIC_PSU_STATE_PRE_ERROR } else self) d
    rw [a1, a2, a3, a4, b1, b2]
    split_ifs <;> exact ⟨rfl, rfl, rfl, rfl, rfl, rfl⟩
  · rw [update_of_pre_error self d h]
    exact ⟨rfl, rfl, rfl, rfl, rfl, rfl⟩
  · rw [update_of_terminal self d h]
    exact ⟨rfl, rfl, rfl, rfl, rfl, rfl⟩

/-- A sequence of update calls leaves the measured values as they are. -/
theorem run_updates_measured (ds : List Nat) (self : generic_psu) :
    (run_updates self ds)._out_voltage_V = self._out_voltage_V ∧
      (run_updates self ds)._out_current_A = self._out_current_A := by
  induction ds generalizing self with
  | nil => exact ⟨rfl, rfl⟩
  | cons d ds ih =>
    obtain ⟨-, -, -, h4, h5, -⟩ := update_frame self d
    obtain ⟨i1, i2⟩ := ih (generic_psu_update self d).1
    exact ⟨i1.trans h4, i2.trans h5⟩

/-! ## Acknowledgment timeout from a default init -/

/-- C11: after init and a first update (any elapsed value `d0`), with neither
set_ack_settings nor set_timeout_ms called, the armed timeout is the 0 written by init;
so for every elapsed value `d` the next update returns NONE and leaves the state
PRE_ERROR, and the update after that (any elapsed value `d2`) returns STOPPED and leaves
the state ERROR. -/
theorem ack_timeout_from_default_init (self : generic_psu) (d0 d d2 : Nat) :
    (run_calls (generic_psu_init self) [generic_psu_call.update d0])._timeout_ms = 0 ∧
      run_events (generic_psu_init self)
          [generic_psu_call.update d0, generic_psu_call.update d,
            generic_psu_call.update d2] =
        [generic_psu_event.GENERIC_PSU_EVENT_STARTED,
          generic_psu_event.GENERIC_PSU_EVENT_NONE,
          generic_psu_event.GENERIC_PSU_EVENT_STOPPED] ∧
      (run_calls (generic_psu_init self)
          [generic_psu_call.update d0, generic_psu_call.update d])._state =
        GENERIC_PSU_STATE_PRE_ERROR ∧
      (run_calls (generic_psu_init self)
          [generic_psu_call.update d0, generic_psu_call.update d,
            generic_psu_call.update d2])._state =
        GENERIC_PSU_STATE_ERROR := by
  simp [run_events, run_calls, generic_psu_call.apply, generic_psu_update, generic_psu_init,
    _generic_psu_check_state_timeout, GENERIC_PSU_FLAG_ACK_SETTINGS]

/-! ## The timeout setter -/

/-- C12, as stated, fails: on the structure right after init and the first update
(WAIT_FOR_INITIAL_SETTINGS, flag clear, timer 0, armed timeout 0), update(0) alone gives
PRE_ERROR, while set_timeout_ms(100) followed by update(0) leaves
WAIT_FOR_INITIAL_SETTINGS. -/
theorem set_timeout_ms_changes_next_update :
    psu_waiting_default._state = GENERIC_PSU_STATE_WAIT_FOR_INITIAL_SETTINGS ∧
      (psu_waiting_default._flags &&& GENERIC_PSU_FLAG_ACK_SETTINGS) = 0 ∧
      ¬ ((generic_psu_update (generic_psu_set_timeout_ms psu_waiting_default 100) 0).1._state =
        (generic_psu_update psu_waiting_default 0).1._state) := by
  decide

/-- C12, amended: `generic_psu_set_timeout_ms` writes the armed timeout `_timeout_ms` and
no other field, so the value applies at once: for every structure in
WAIT_FOR_INITIAL_SETTINGS with the settings-acknowledged flag clear, every timeout value
and every elapsed value `d`, the state after set_timeout_ms followed by update(d) is
PRE_ERROR when `(timer + d) mod 2^32` is at least the new value and
WAIT_FOR_INITIAL_SETTINGS otherwise, whereas after update(d) alone the same comparison is
made with the previous `_timeout_ms`. -/
theorem set_timeout_ms_applies_at_once (self : generic_psu) (timeout_ms d : Nat)
    (hstate : self._state = GENERIC_PSU_STATE_WAIT_FOR_INITIAL_SETTINGS)
    (hack : (self._flags &&& GENERIC_PSU_FLAG_ACK_SETTINGS) = 0) :
    generic_psu_set_timeout_ms self timeout_ms = { self with _timeout_ms := timeout_ms } ∧
      (generic_psu_update (generic_psu_set_timeout_ms self timeout_ms) d).1._state =
        (if (self._timer_ms + d) % 2 ^ 32 ≥ timeout_ms then GENERIC_PSU_STATE_PRE_ERROR
          else GENERIC_PSU_STATE_WAIT_FOR_INITIAL_SETTINGS) ∧
      (generic_psu_update self d).1._state =
        (if (self._timer_ms + d) % 2 ^ 32 ≥ self._timeout_ms then
            GENERIC_PSU_STATE_PRE_ERROR
          else GENERIC_PSU_STATE_WAIT_FOR_INITIAL_SETTINGS) := by
  refine ⟨rfl, ?_, ?_⟩
  · rw [update_of_wait_settings_unacked (generic_psu_set_timeout_ms self timeout_ms) d
      hstate hack, check_state_timeout_state]
    show (if (self._timer_ms + d) % 2 ^ 32 ≥ timeout_ms then GENERIC_PSU_STATE_PRE_ERROR
      else self._state) = _
    rw [hstate]
  · rw [update_of_wait_settings_unacked self d hstate hack, check_state_timeout_state,
      hstate]

/-- Witness of C12 (amended): armed timeout 0, timer 0; set_timeout_ms(100) then update(0)
leaves WAIT_FOR_INITIAL_SETTINGS, update(0) alone gives PRE_ERROR. -/
theorem set_timeout_ms_applies_at_once_witness :
    (generic_psu_update (generic_psu_set_timeout_ms psu_waiting_default 100) 0).1._state =
        GENERIC_PSU_STATE_WAIT_FOR_INITIAL_SETTINGS ∧
      (generic_psu_update psu_waiting_default 0).1._state = GENERIC_PSU_STATE_PRE_ERROR :=
  ⟨(set_timeout_ms_applies_at_once psu_waiting_default 100 0 (by decide) (by decide)).2.1,
    (set_timeout_ms_applies_at_once psu_waiting_default 100 0 (by decide) (by decide)).2.2⟩

/-! ## Hardware event and measured values -/

/-- Setting bit 1 of the flags sets it. -/
theorem flags_lor_hw_ok_land_hw_ok (f : Nat) :
    (f ||| GENERIC_PSU_FLAG_HW_OK) &&& GENERIC_PSU_FLAG_HW_OK = GENERIC_PSU_FLAG_HW_OK := by
  apply Nat.eq_of_testBit_eq
  intro i
  rw [Nat.testBit_and, Nat.testBit_or]
  cases f.testBit i <;> cases Nat.testBit GENERIC_PSU_FLAG_HW_OK i <;> rfl

/-- Setting bit 1 of the flags keeps bit 0. -/
theorem flags_lor_hw_ok_land_ack (f : Nat) :
    (f ||| GENERIC_PSU_FLAG_HW_OK) &&& GENERIC_PSU_FLAG_ACK_SETTINGS =
      f &&& GENERIC_PSU_FLAG_ACK_SETTINGS := by
  rw [Nat.and_distrib_right]
  have h : GENERIC_PSU_FLAG_HW_OK &&& GENERIC_PSU_FLAG_ACK_SETTINGS = 0 := by decide
  rw [h, Nat.or_zero]

/-- Clearing bit 1 of the flags clears it. -/
theorem flags_land_mask_land_hw_ok (f : Nat) :
    (f &&& (255 ^^^ GENERIC_PSU_FLAG_HW_OK)) &&& GENERIC_PSU_FLAG_HW_OK = 0 := by
  rw [Nat.and_assoc]
  have h : ((255 : Nat) ^^^ GENERIC_PSU_FLAG_HW_OK) &&& GENERIC_PSU_FLAG_HW_OK = 0 := by
    decide
  rw [h, Nat.and_zero]

/-- Clearing bit 1 of the flags keeps bit 0. -/
theorem flags_land_mask_land_ack (f : Nat) :
    (f &&& (255 ^^^ GENERIC_PSU_FLAG_HW_OK)) &&& GENERIC_PSU_FLAG_ACK_SETTINGS =
      f &&& GENERIC_PSU_FLAG_ACK_SETTINGS := by
  rw [Nat.and_assoc]
  have h : ((255 : Nat) ^^^ GENERIC_PSU_FLAG_HW_OK) &&& GENERIC_PSU_FLAG_ACK_SETTINGS =
      GENERIC_PSU_FLAG_ACK_SETTINGS := by decide
  rw [h]

/-- C13: `generic_psu_set_hw_event` acts on the hardware-OK bit only.  READY gives a
structure whose hardware-OK bit is set, FAULT one whose hardware-OK bit is clear, and NONE
or any other event value returns the structure unchanged; in every case the
settings-acknowledged bit is as before and the result differs from the input in `_flags`
at most. -/
theorem set_hw_event_tri_valued (self : generic_psu) (event : Nat) :
    (event = GENERIC_PSU_HW_EVENT_READY →
        ((generic_psu_set_hw_event self event)._flags &&& GENERIC_PSU_FLAG_HW_OK) > 0) ∧
      (event = GENERIC_PSU_HW_EVENT_FAULT →
        ((generic_psu_set_hw_event self event)._flags &&& GENERIC_PSU_FLAG_HW_OK) = 0) ∧
      (event ≠ GENERIC_PSU_HW_EVENT_READY → event ≠ GENERIC_PSU_HW_EVENT_FAULT →
        generic_psu_set_hw_event self event = self) ∧
      ((generic_psu_set_hw_event self event)._flags &&& GENERIC_PSU_FLAG_ACK_SETTINGS) =
        (self._flags &&& GENERIC_PSU_FLAG_ACK_SETTINGS) ∧
      generic_psu_set_hw_event self event =
        { self with _flags := (generic_psu_set_hw_event self event)._flags } := by
  refine ⟨?_, ?_, ?_, ?_, ?_⟩
  · intro h
    rw [generic_psu_set_hw_event, if_pos h]
    show (self._flags ||| GENERIC_PSU_FLAG_HW_OK) &&& GENERIC_PSU_FLAG_HW_OK > 0
    rw [flags_lor_hw_ok_land_hw_ok]
    decide
  · intro h
    have h1 : ¬ event = GENERIC_PSU_HW_EVENT_READY := by rw [h]; decide
    rw [generic_psu_set_hw_event, if_neg h1, if_pos h]
    exact flags_land_mask_land_hw_ok self._flags
  · intro h1 h2
    rw [generic_psu_set_hw_event, if_neg h1, if_neg h2]
  · unfold generic_psu_set_hw_event
    split_ifs
    · exact flags_lor_hw_ok_land_ack self._flags
    · exact flags_land_mask_land_ack self._flags
    · rfl
  · unfold generic_psu_set_hw_event
    split_ifs <;> rfl

/-- Witness of C13: on a structure with only the settings-acknowledged bit set (flags 1),
READY gives flags 3, FAULT after it gives flags 1 again, and the event values 0 and 7
change nothing. -/
theorem set_hw_event_tri_valued_witness :
    ((generic_psu_set_hw_event psu_acknowledged 1)._flags &&& GENERIC_PSU_FLAG_HW_OK) > 0 ∧
      ((generic_psu_set_hw_event (generic_psu_set_hw_event psu_acknowledged 1) 2)._flags &&&
        GENERIC_PSU_FLAG_HW_OK) = 0 ∧
      generic_psu_set_hw_event psu_acknowledged 0 = psu_acknowledged ∧
      generic_psu_set_hw_event psu_acknowledged 7 = psu_acknowledged :=
  ⟨(set_hw_event_tri_valued psu_acknowledged 1).1 rfl,
    (set_hw_event_tri_valued (generic_psu_set_hw_event psu_acknowledged 1) 2).2.1 rfl,
    (set_hw_event_tri_valued psu_acknowledged 0).2.2.1 (by decide) (by decide),
    (set_hw_event_tri_valued psu_acknowledged 7).2.2.1 (by decide) (by decide)⟩

/-- C14: for every structure, every voltage `v` and current `c` (within the configured
output bounds or not), after set_hw_out_voltage_V(v) and set_hw_out_current_A(c), in
either order, and after any further sequence of update calls, the two getters return `v`
and `c`. -/
theorem measured_values_pass_through (self : generic_psu) (v : Nat) (c : Int)
    (ds : List Nat) :
    generic_psu_get_out_voltage_V
        (run_updates
          (generic_psu_set_hw_out_current_A (generic_psu_set_hw_out_voltage_V self v) c)
          ds) = v ∧
      generic_psu_get_out_current_A
        (run_updates
          (generic_psu_set_hw_out_current_A (generic_psu_set_hw_out_voltage_V self v) c)
          ds) = c ∧
      generic_psu_get_out_voltage_V
        (run_updates
          (generic_psu_set_hw_out_voltage_V (generic_psu_set_hw_out_current_A self c) v)
          ds) = v ∧
      generic_psu_get_out_current_A
        (run_updates
          (generic_psu_set_hw_out_voltage_V (generic_psu_set_hw_out_current_A self c) v)
          ds) = c := by
  obtain ⟨h1, h2⟩ := run_updates_measured ds
    (generic_psu_set_hw_out_current_A (generic_psu_set_hw_out_voltage_V self v) c)
  obtain ⟨h3, h4⟩ := run_updates_measured ds
    (generic_psu_set_hw_out_voltage_V (generic_psu_set_hw_out_current_A self c) v)
  exact ⟨h1, h2, h3, h4⟩

/-! ## Loss of hardware OK while running -/

/-- C15: for every RUNNING structure whose hardware-OK flag is clear, every elapsed value
and every measured voltage and current, `generic_psu_update` returns NONE and leaves the
state PRE_ERROR; the working-condition check, which runs on that tick too, leaves the
state it is given or writes PRE_ERROR, nothing else. -/
theorem hw_ok_lost_while_running (self : generic_psu) (d : Nat)
    (hstate : self._state = GENERIC_PSU_STATE_RUNNING)
    (hclear : (self._flags &&& GENERIC_PSU_FLAG_HW_OK) = 0) :
    (generic_psu_update self d).2 = generic_psu_event.GENERIC_PSU_EVENT_NONE ∧
      (generic_psu_update self d).1._state = GENERIC_PSU_STATE_PRE_ERROR ∧
      ∀ (s : generic_psu) (delta_time_ms : Nat),
        (_generic_psu_check_working_conditions s delta_time_ms)._state = s._state ∨
          (_generic_psu_check_working_conditions s delta_time_ms)._state =
            GENERIC_PSU_STATE_PRE_ERROR := by
  rw [update_of_running self d hstate, if_pos hclear]
  refine ⟨rfl, ?_, check_working_conditions_state⟩
  rcases check_working_conditions_state
    { self with _state := GENERIC_PSU_STATE_PRE_ERROR } d with h | h
  · exact h
  · exact h

/-- Witness of C15: a RUNNING structure with in-range measured values on which the
hardware signalled a fault; the next update (elapsed 5) returns NONE and gives
PRE_ERROR. -/
theorem hw_ok_lost_while_running_witness :
    (generic_psu_update psu_running_hw_fault 5).2 =
        generic_psu_event.GENERIC_PSU_EVENT_NONE ∧
      (generic_psu_update psu_running_hw_fault 5).1._state = GENERIC_PSU_STATE_PRE_ERROR :=
  ⟨(hw_ok_lost_while_running psu_running_hw_fault 5 (by decide) (by decide)).1,
    (hw_ok_lost_while_running psu_running_hw_fault 5 (by decide) (by decide)).2.1⟩

/-! ## The acknowledged tick and the armed timeout -/

/-- C16, as stated, fails: on the structure after init, the first update and
set_ack_settings (WAIT_FOR_INITIAL_SETTINGS, flag set, timer 0, armed timeout 0), timer
plus elapsed 0 reaches the armed timeout 0, yet update(0) gives
WAIT_INITIAL_HARDWARE_RESPONSE, not PRE_ERROR. -/
theorem acknowledged_tick_ignores_previous_timeout :
    psu_acknowledged._state = GENERIC_PSU_STATE_WAIT_FOR_INITIAL_SETTINGS ∧
      (psu_acknowledged._flags &&& GENERIC_PSU_FLAG_ACK_SETTINGS) > 0 ∧
      psu_acknowledged._timer_ms + 0 < 2 ^ 32 ∧
      ¬ ((generic_psu_update psu_acknowledged 0).1._state =
        if psu_acknowledged._timer_ms + 0 ≥ psu_acknowledged._timeout_ms then
          GENERIC_PSU_STATE_PRE_ERROR
        else GENERIC_PSU_STATE_WAIT_INITIAL_HARDWARE_RESPONSE) := by
  decide

/-- C16, amended: in WAIT_FOR_INITIAL_SETTINGS with the settings-acknowledged flag set, the
state-timeout check of that tick runs after the transition has reset the timer to 0 and
armed the configured settings timeout: for every such structure and every elapsed value
`d`, the state after `generic_psu_update` is PRE_ERROR if `d mod 2^32` is at least
`_settings.timeout_ms` and WAIT_INITIAL_HARDWARE_RESPONSE otherwise, and the timer after
the call is `d mod 2^32`; the timer and the armed timeout from before the call are not
used. -/
theorem acknowledged_tick_uses_reset_timer (self : generic_psu) (d : Nat)
    (hstate : self._state = GENERIC_PSU_STATE_WAIT_FOR_INITIAL_SETTINGS)
    (hack : (self._flags &&& GENERIC_PSU_FLAG_ACK_SETTINGS) > 0) :
    (generic_psu_update self d).1._state =
        (if d % 2 ^ 32 ≥ self._settings.timeout_ms then GENERIC_PSU_STATE_PRE_ERROR
          else GENERIC_PSU_STATE_WAIT_INITIAL_HARDWARE_RESPONSE) ∧
      (generic_psu_update self d).1._timer_ms = d % 2 ^ 32 := by
  rw [update_of_wait_settings self d hstate, if_pos hack, check_state_timeout_eq]
  dsimp only
  rw [Nat.zero_add]
  exact ⟨rfl, rfl⟩

/-- Witness of C16 (amended): timer 0, armed timeout 0, settings timeout 15000, elapsed 0:
the state after the update is WAIT_INITIAL_HARDWARE_RESPONSE. -/
theorem acknowledged_tick_uses_reset_timer_witness :
    (generic_psu_update psu_acknowledged 0).1._state =
        GENERIC_PSU_STATE_WAIT_INITIAL_HARDWARE_RESPONSE ∧
      (generic_psu_update psu_acknowledged 0).1._timer_ms = 0 :=
  acknowledged_tick_uses_reset_timer psu_acknowledged 0 (by decide) (by decide)

/-- A call, update or setter, leaves the settings as they are. -/
theorem apply_settings (self : generic_psu) (c : generic_psu_call) :
    (generic_psu_call.apply self c)._settings = self._settings := by
  cases c with
  | update d => exact (update_frame self d).1
  | set_hw_event e =>
    simp only [generic_psu_call.apply, generic_psu_set_hw_event]
    split_ifs <;> rfl
  | _ => rfl

/-- A sequence of calls leaves the settings as they are. -/
theorem run_calls_settings (cs : List generic_psu_call) (self : generic_psu) :
    (run_calls self cs)._settings = self._settings := by
  induction cs generalizing self with
  | nil => rfl
  | cons c cs ih => exact (ih _).trans (apply_settings self c)

/-- C17: `generic_psu_update` changes the armed timeout `_timeout_ms` only when the state
before the call is WAIT_FOR_INITIAL_SETTINGS with the settings-acknowledged flag set, and
then the new value is the configured `_settings.timeout_ms`; every other update call
leaves `_timeout_ms` as it was.  The configured value is 15000 after init and after any
calls that follow it. -/
theorem timeout_armed_only_at_acknowledged_transition (self : generic_psu) (d : Nat)
    (cs : List generic_psu_call) :
    (generic_psu_update self d).1._timeout_ms =
        (if self._state = GENERIC_PSU_STATE_WAIT_FOR_INITIAL_SETTINGS ∧
            (self._flags &&& GENERIC_PSU_FLAG_ACK_SETTINGS) > 0 then
          self._settings.timeout_ms
        else self._timeout_ms) ∧
      (run_calls (generic_psu_init self) cs)._settings.timeout_ms = 15000 := by
  refine ⟨?_, by rw [run_calls_settings]; rfl⟩
  have hn : self._state ≠ GENERIC_PSU_STATE_WAIT_FOR_INITIAL_SETTINGS →
      ¬ (self._state = GENERIC_PSU_STATE_WAIT_FOR_INITIAL_SETTINGS ∧
        (self._flags &&& GENERIC_PSU_FLAG_ACK_SETTINGS) > 0) := fun h1 h2 => h1 h2.1
  rcases state_cases self with h | h | h | h | h | h
  · rw [update_of_init self d h, if_neg (hn (by rw [h]; decide))]
  · rw [update_of_wait_settings self d h]
    dsimp only
    rw [(check_state_timeout_frame _ d).2.1]
    by_cases hack : (self._flags &&& GENERIC_PSU_FLAG_ACK_SETTINGS) > 0
    · rw [if_pos hack, if_pos ⟨h, hack⟩]
    · rw [if_neg hack, if_neg (fun hh => hack hh.2)]
  · rw [update_of_wait_hardware self d h, if_neg (hn (by rw [h]; decide))]
    dsimp only
    rw [(check_state_timeout_frame _ d).2.1]
    split_ifs <;> rfl
  · rw [update_of_running self d h, if_neg (hn (by rw [h]; decide))]
    dsimp only
    rw [(check_working_conditions_frame_rest _ d).2.2.2]
    split_ifs <;> rfl
  · rw [update_of_pre_error self d h, if_neg (hn (by rw [h]; decide))]
  · have h5 : (5 : Nat) ≤ self._state := h
    have h1 : self._state ≠ GENERIC_PSU_STATE_WAIT_FOR_INITIAL_SETTINGS := by
      show self._state ≠ 1
      omega
    rw [update_of_terminal self d h, if_neg (hn h1)]

/-! ## One tick in the hardware wait -/

/-- C18: for every structure in WAIT_INITIAL_HARDWARE_RESPONSE and every elapsed value
`d`, `generic_psu_update` returns NONE, sets the timer to `(timer + d) mod 2^32`, leaves
the armed timeout unchanged, and the resulting state is PRE_ERROR if the new timer is at
least the armed timeout, otherwise RUNNING if the hardware-OK flag is set, otherwise still
WAIT_INITIAL_HARDWARE_RESPONSE. -/
theorem hardware_wait_tick (self : generic_psu) (d : Nat)
    (hstate : self._state = GENERIC_PSU_STATE_WAIT_INITIAL_HARDWARE_RESPONSE) :
    (generic_psu_update self d).2 = generic_psu_event.GENERIC_PSU_EVENT_NONE ∧
      (generic_psu_update self d).1._timer_ms = (self._timer_ms + d) % 2 ^ 32 ∧
      (generic_psu_update self d).1._timeout_ms = self._timeout_ms ∧
      (generic_psu_update self d).1._state =
        (if (self._timer_ms + d) % 2 ^ 32 ≥ self._timeout_ms then
            GENERIC_PSU_STATE_PRE_ERROR
          else if (self._flags &&& GENERIC_PSU_FLAG_HW_OK) > 0 then
            GENERIC_PSU_STATE_RUNNING
          else GENERIC_PSU_STATE_WAIT_INITIAL_HARDWARE_RESPONSE) := by
  rw [update_of_wait_hardware self d hstate, check_state_timeout_eq]
  by_cases hok : (self._flags &&& GENERIC_PSU_FLAG_HW_OK) > 0
  · rw [if_pos hok, if_pos hok]
    exact ⟨rfl, rfl, rfl, rfl⟩
  · rw [if_neg hok, if_neg hok, hstate]
    exact ⟨rfl, rfl, rfl, rfl⟩

/-- Witness of C18: timer 14000 of the armed 15000 and the hardware-OK flag just set; the
tick with elapsed 1000 reaches the timeout and gives PRE_ERROR, not RUNNING. -/
theorem hardware_wait_tick_witness :
    (psu_hardware_ready_late._flags &&& GENERIC_PSU_FLAG_HW_OK) > 0 ∧
      (generic_psu_update psu_hardware_ready_late 1000).2 =
        generic_psu_event.GENERIC_PSU_EVENT_NONE ∧
      (generic_psu_update psu_hardware_ready_late 1000).1._timer_ms = 15000 ∧
      (generic_psu_update psu_hardware_ready_late 1000).1._state =
        GENERIC_PSU_STATE_PRE_ERROR :=
  ⟨by decide, (hardware_wait_tick psu_hardware_ready_late 1000 (by decide)).1,
    (hardware_wait_tick psu_hardware_ready_late 1000 (by decide)).2.1,
    (hardware_wait_tick psu_hardware_ready_late 1000 (by decide)).2.2.2⟩

/-! ## What update never writes, and the wrap of the dwell accumulators -/

/-- C19: for every structure and every elapsed value, the settings (all bounds and the
settings timeout), the commanded output voltage and current, the measured output voltage
and current and the flags are the same after `generic_psu_update` as before it: the
result is the input with at most the lifecycle state, the state timer, the armed timeout
and the two dwell accumulators replaced. -/
theorem update_preserves_configuration_and_inputs (self : generic_psu) (d : Nat) :
    (generic_psu_update self d).1 =
      { self with
        _state := (generic_psu_update self d).1._state
        _timer_ms := (generic_psu_update self d).1._timer_ms
        _timeout_ms := (generic_psu_update self d).1._timeout_ms
        _overcurrent_timer := (generic_psu_update self d).1._overcurrent_timer
        _overvoltage_timer := (generic_psu_update self d).1._overvoltage_timer } := by
  obtain ⟨h1, h2, h3, h4, h5, h6⟩ := update_frame self d
  generalize (generic_psu_update self d).1 = r at h1 h2 h3 h4 h5 h6
  cases r
  cases self
  simp only at h1 h2 h3 h4 h5 h6
  subst h1 h2 h3 h4 h5 h6
  rfl

/-- C20: the dwell accumulators wrap modulo 2^32.  There are a RUNNING structure with the
hardware-OK flag set, the measured voltage within its bounds and the measured current
above `max_out_current_A`, and two update calls with 32-bit elapsed values 1000 and
2^32 - 1000, whose total exceeds 1000 ms, after which the state is still RUNNING and the
overcurrent accumulator is 0. -/
theorem overcurrent_accumulator_wraps :
    ∃ (self : generic_psu) (ds : List Nat),
      self._state = GENERIC_PSU_STATE_RUNNING ∧
      (self._flags &&& GENERIC_PSU_FLAG_HW_OK) > 0 ∧
      (self._settings.min_out_voltage_V ≤ self._out_voltage_V ∧
        self._out_voltage_V ≤ self._settings.max_out_voltage_V) ∧
      self._out_current_A > self._settings.max_out_current_A ∧
      ds = [1000, 2 ^ 32 - 1000] ∧
      (∀ d ∈ ds, d < 2 ^ 32) ∧
      ds.sum > 1000 ∧
      (run_updates self ds)._out_current_A >
        (run_updates self ds)._settings.max_out_current_A ∧
      (run_updates self ds)._state = GENERIC_PSU_STATE_RUNNING ∧
      (run_updates self ds)._overcurrent_timer = 0 :=
  ⟨psu_running_12A, [1000, 2 ^ 32 - 1000], by decide⟩
